import Mathlib

/-!
# The TIA chip model of `atari2600` (`src/tia.cc`)

A shallow embedding of `src/tia.cc`: the chip's register bank, its two
address-dispatch tables, the deferred bus write, the per-cycle beam check and
pixel selection, and the catch-up loop `process_tia`.

Conventions of the embedding.

* The C++ object `TIA` together with the globals it touches (`cycle_num`, the
  standard output written by `printf`, the calls of `panic()`) is one record,
  `TIA`; every member function becomes a function from records to records.
* `uint8_t` and `uint64_t` values are natural numbers; where the C++ code
  converts to one of these types the embedding reduces modulo `2^8` or `2^64`.
  The widths of `cycle_num` and `tia_cycle_num` are declared in headers that
  are not part of `src/`; they are unbounded naturals here.
* A `std::function` slot is an `Option`: the empty function is `none`.
* `panic()` is defined outside `src/`; by the spec a fatal condition halts the
  emulation at once. The functions of namespace `TIA` give the effect of the
  statements of each function in source order, a call of `panic()` counted in
  `panics`; the functions of namespace `Run` give the outcome of a call, which
  is `returned`, or `halted` at the first `panic()` it reaches.
* The `while` loop of `process_tia` is run with a fuel argument and returns
  `none` when the fuel runs out before the loop condition turns false.
-/

namespace Atari

/-- Constants read by `tia.cc` whose declarations live in headers outside
`src/` (`tia_cycle_ratio`, `cpu_scanline_cycles`, `NTSC::hblank`,
`NTSC::vsync_lines`) and the two beam limits of the beam model. -/
structure Timing where
  /-- Chip cycles per CPU cycle. -/
  tia_cycle_ratio : Nat
  /-- CPU cycles per scanline. -/
  cpu_scanline_cycles : Nat
  /-- The constant `NTSC::hblank`: width of horizontal blank in beam units. -/
  hblank : Nat
  /-- The constant `NTSC::vsync_lines`. -/
  vsync_lines : Nat
  /-- Beam positions per scanline (line length). -/
  columns : Nat
  /-- Scanlines per frame. -/
  scanlines : Nat
deriving DecidableEq, Repr

/-- The lines that `tia.cc` prints with `printf` before it calls `panic()`. -/
inductive Report where
  /-- The line "Error! Invalid DMA read at %x". -/
  | invalid_dma_read (addr : Nat)
  /-- The line "Error! Invalid DMA write at %x". -/
  | invalid_dma_write (addr : Nat)
  /-- The line "Error! No vertical sync!". -/
  | no_vertical_sync
  /-- The line "Error! Too long of vertical sync!". -/
  | too_long_vertical_sync
  /-- The line "Error! Invalid VSYNC value %x". -/
  | invalid_vsync (val : Nat)
  /-- The line "Error! Invalid VBLANK value %x". -/
  | invalid_vblank (val : Nat)
deriving DecidableEq, Repr

/-- The member functions that the constructor binds into `dma_write_table`;
a non-empty `std::function<void(uint8_t)>` of the chip is one of these. -/
inductive WriteFunc where
  | vsync
  | vblank
  | wsync
  | colupf
  | colubk
  | ctrlpf
  | pf0
  | pf1
  | pf2
deriving DecidableEq, Repr

/-- A non-empty slot of `dma_read_table`: a nullary function returning a byte.
`tia.cc` defines and registers none. -/
abbrev ReadFunc := Unit → Nat

/-- The beam object `ntsc`: the gun position and the colours handed to
`write_pixel` so far, most recent first (`none` is the call without argument). -/
structure NTSC where
  gun_x : Nat
  gun_y : Nat
  pixels : List (Option Nat)
deriving DecidableEq, Repr

/-- The chip object with the globals it reads and writes. -/
structure TIA where
  /-- The global CPU cycle counter `cycle_num`. -/
  cycle_num : Nat
  tia_cycle_num : Nat
  vsync_mode : Bool
  vblank_mode : Bool
  /-- A `uint64_t`. -/
  playfield_mask : Nat
  playfield_mirrored : Bool
  playfield_color : Nat
  background_color : Nat
  /-- The pending write: handler and value. -/
  dma_write_request : Option WriteFunc
  dma_val : Nat
  dma_read_table : Nat → Option ReadFunc
  dma_write_table : Nat → Option WriteFunc
  ntsc : NTSC
  /-- Lines printed so far, most recent first. -/
  stdout : List Report
  /-- Number of calls of `panic()` so far. -/
  panics : Nat

/-- Conversion to `uint8_t`. -/
def u8 (n : Nat) : Nat := n % 2 ^ 8

/-- Conversion to `uint64_t`. -/
def u64 (n : Nat) : Nat := n % 2 ^ 64

/-- Translation of `reverse_byte` (tia.cc:10-15). -/
def reverse_byte (b : Nat) : Nat :=
  let b := u8 b
  let b := u8 (((b &&& 0xF0) >>> 4) ||| ((b &&& 0x0F) <<< 4))
  let b := u8 (((b &&& 0xCC) >>> 2) ||| ((b &&& 0x33) <<< 2))
  let b := u8 (((b &&& 0xAA) >>> 1) ||| ((b &&& 0x55) <<< 1))
  b

/-- Modelled from the spec: `NTSC::write_pixel` is defined outside `src/`. The
colour is recorded, then the beam moves one unit: `gun_x` is incremented; on
reaching the line length it is reset and `gun_y` incremented; on reaching the
number of lines per frame `gun_y` is reset to 0. -/
def NTSC.write_pixel (t : Timing) (n : NTSC) (color : Option Nat) : NTSC :=
  if n.gun_x + 1 = t.columns then
    { gun_x := 0
      gun_y := if n.gun_y + 1 = t.scanlines then 0 else n.gun_y + 1
      pixels := color :: n.pixels }
  else
    { gun_x := n.gun_x + 1
      gun_y := n.gun_y
      pixels := color :: n.pixels }

namespace TIA

/-- Modelled from the spec: `panic()` is defined outside `src/`; it raises the
fatal condition, which halts the emulation at once, with no partial
continuation. The record it gives is the state of the halted emulation, the
call counted in `panics`; `Run` ends a call there. -/
def panic (s : TIA) : TIA :=
  { s with panics := s.panics + 1 }

/-- One `printf` of an error line. -/
def printf (s : TIA) (r : Report) : TIA :=
  { s with stdout := r :: s.stdout }

/-- Translation of `TIA::dma_read_hook` (tia.cc:17-26): the byte returned and
the state after the call. -/
def dma_read_hook (s : TIA) (addr : Nat) : Nat × TIA :=
  match s.dma_read_table addr with
  | none => (0, panic (printf s (.invalid_dma_read addr)))
  | some read_func => (read_func (), s)

/-- Translation of `TIA::dma_write_hook` (tia.cc:28-37). The two assignments
follow the `if` on both paths: the `if` body has no `return`. -/
def dma_write_hook (s : TIA) (addr : Nat) (val : Nat) : TIA :=
  let write_func := s.dma_write_table addr
  let s1 := if write_func.isNone then panic (printf s (.invalid_dma_write addr)) else s
  { s1 with dma_write_request := write_func, dma_val := val }

/-- Translation of `TIA::process_tia_cycle` (tia.cc:39-59). -/
def process_tia_cycle (t : Timing) (s : TIA) : TIA :=
  let s1 :=
    if 0 < s.ntsc.gun_y ∧ s.ntsc.gun_y < t.vsync_lines ∧ s.vsync_mode = false then
      panic (printf s .no_vertical_sync)
    else if t.vsync_lines < s.ntsc.gun_y ∧ s.vsync_mode = true then
      panic (printf s .too_long_vertical_sync)
    else s
  let s2 :=
    if s1.vblank_mode = false then
      let visible_x : Int := (s1.ntsc.gun_x : Int) - (t.hblank : Int)
      if 0 ≤ visible_x ∧ (s1.playfield_mask >>> (Int.tdiv visible_x 4).toNat) &&& 0x01 ≠ 0 then
        { s1 with ntsc := s1.ntsc.write_pixel t (some s1.playfield_color) }
      else
        { s1 with ntsc := s1.ntsc.write_pixel t (some s1.background_color) }
    else
      { s1 with ntsc := s1.ntsc.write_pixel t none }
  { s2 with tia_cycle_num := s2.tia_cycle_num + 1 }

/-- Translation of `TIA::vsync` (tia.cc:61-68). -/
def vsync (s : TIA) (val : Nat) : TIA :=
  if val ≠ 0 ∧ val ≠ 2 then
    panic (printf s (.invalid_vsync val))
  else
    { s with vsync_mode := decide (val = 2) }

/-- Translation of `TIA::vblank` (tia.cc:70-78). -/
def vblank (s : TIA) (val : Nat) : TIA :=
  if val &&& 0x3C ≠ 0 then
    panic (printf s (.invalid_vblank val))
  else
    { s with vblank_mode := decide (val = 2) }

/-- Translation of `TIA::wsync` (tia.cc:81-84); the written byte is unused. -/
def wsync (t : Timing) (s : TIA) (_val : Nat) : TIA :=
  let cpu_cycle_start := t.hblank / t.tia_cycle_ratio
  { s with cycle_num :=
      s.cycle_num + (cpu_cycle_start + (t.cpu_scanline_cycles - s.cycle_num % t.cpu_scanline_cycles)) }

/-- Translation of `TIA::colupf` (tia.cc:86-88). -/
def colupf (s : TIA) (val : Nat) : TIA :=
  { s with playfield_color := val }

/-- Translation of `TIA::handle_playfield_mirror` (tia.cc:90-106). -/
def handle_playfield_mirror (s : TIA) : TIA :=
  let m := s.playfield_mask &&& 0xFFFFF
  if s.playfield_mirrored = false then
    { s with playfield_mask := m ||| (m ||| u64 (m <<< 20)) }
  else
    let pf0 := m &&& 0x0F
    let pf1 := (m >>> 4) &&& 0xFF
    let pf2 := (m >>> 12) &&& 0xFF
    let pf0 := reverse_byte pf0 >>> 4
    let pf1 := reverse_byte pf1
    let pf2 := reverse_byte pf2
    let m := m ||| m
    let m := m ||| u64 (pf2 <<< 20)
    let m := m ||| u64 (pf1 <<< 28)
    let m := m ||| u64 (pf0 <<< 36)
    { s with playfield_mask := m }

/-- Translation of `TIA::ctrlpf` (tia.cc:108-112). -/
def ctrlpf (s : TIA) (val : Nat) : TIA :=
  handle_playfield_mirror { s with playfield_mirrored := decide (val &&& 0x01 ≠ 0) }

/-- Translation of `TIA::pf0` (tia.cc:114-118); `~0x0F` is an `int` that is
sign-extended to 64 bits. -/
def pf0 (s : TIA) (val : Nat) : TIA :=
  let m := s.playfield_mask &&& 0xFFFFFFFFFFFFFFF0
  let m := m ||| (val >>> 4)
  handle_playfield_mirror { s with playfield_mask := m }

/-- Translation of `TIA::pf1` (tia.cc:120-124). -/
def pf1 (s : TIA) (val : Nat) : TIA :=
  let m := s.playfield_mask &&& 0xFFFFFFFFFFFFF00F
  let m := m ||| u64 (val <<< 4)
  handle_playfield_mirror { s with playfield_mask := m }

/-- Translation of `TIA::pf2` (tia.cc:126-130). -/
def pf2 (s : TIA) (val : Nat) : TIA :=
  let m := s.playfield_mask &&& 0xFFFFFFFFFFF00FFF
  let m := m ||| u64 (val <<< 12)
  handle_playfield_mirror { s with playfield_mask := m }

/-- Translation of `TIA::colubk` (tia.cc:132-134). -/
def colubk (s : TIA) (val : Nat) : TIA :=
  { s with background_color := val }

/-- Calling a bound handler `f(val)`. -/
def call (t : Timing) (f : WriteFunc) (s : TIA) (val : Nat) : TIA :=
  match f with
  | .vsync => vsync s val
  | .vblank => vblank s val
  | .wsync => wsync t s val
  | .colupf => colupf s val
  | .colubk => colubk s val
  | .ctrlpf => ctrlpf s val
  | .pf0 => pf0 s val
  | .pf1 => pf1 s val
  | .pf2 => pf2 s val

/-- The body of the constructor `TIA::TIA` (tia.cc:136-149), applied to the
object as its member initialisers leave it. -/
def construct (t : Timing) (s : TIA) : TIA :=
  let tbl := s.dma_write_table
  let tbl := Function.update tbl 0x00 (some WriteFunc.vsync)
  let tbl := Function.update tbl 0x01 (some WriteFunc.vblank)
  let tbl := Function.update tbl 0x02 (some WriteFunc.wsync)
  let tbl := Function.update tbl 0x08 (some WriteFunc.colupf)
  let tbl := Function.update tbl 0x09 (some WriteFunc.colubk)
  let tbl := Function.update tbl 0x0A (some WriteFunc.ctrlpf)
  let tbl := Function.update tbl 0x0D (some WriteFunc.pf0)
  let tbl := Function.update tbl 0x0E (some WriteFunc.pf1)
  let tbl := Function.update tbl 0x0F (some WriteFunc.pf2)
  { s with tia_cycle_num := t.tia_cycle_ratio * s.cycle_num, dma_write_table := tbl }

/-- The first statement of `TIA::process_tia` (tia.cc:152-156): a pending
write is applied and cleared. -/
def apply_pending (t : Timing) (s : TIA) : TIA :=
  match s.dma_write_request with
  | some f => { call t f s s.dma_val with dma_write_request := none, dma_val := 0 }
  | none => s

/-- The `while` loop of `TIA::process_tia` (tia.cc:158-159), run for at most
`fuel` iterations. -/
def catch_up (t : Timing) : Nat → TIA → Option TIA
  | 0, s => if s.tia_cycle_num ≠ t.tia_cycle_ratio * s.cycle_num then none else some s
  | fuel + 1, s =>
    if s.tia_cycle_num ≠ t.tia_cycle_ratio * s.cycle_num then
      catch_up t fuel (process_tia_cycle t s)
    else some s

/-- Translation of `TIA::process_tia` (tia.cc:151-160). -/
def process_tia (t : Timing) (fuel : Nat) (s : TIA) : Option TIA :=
  catch_up t fuel (apply_pending t s)

end TIA

/-- Modelled from the spec: how a call into the chip ends. A fatal condition
halts the emulation loop at once, with no partial continuation, and is the only
early exit. A call that reaches `panic()` does not return: `halted` holds the
state at that point, the error line printed and the call counted, and nothing
that follows the call in the source has run. -/
inductive Outcome where
  /-- The call ran to its end. -/
  | returned (s : TIA)
  /-- The call reached `panic()`. -/
  | halted (s : TIA)

/-- The chip state in which the call ended. -/
def Outcome.state : Outcome → TIA
  | .returned s => s
  | .halted s => s

/-- Whether the call ended in the fatal condition. -/
def Outcome.is_halted : Outcome → Bool
  | .returned _ => false
  | .halted _ => true

namespace Run

/-- The call `vsync(val)` (tia.cc:61-68), halting at `panic()`. -/
def vsync (s : TIA) (val : Nat) : Outcome :=
  if val ≠ 0 ∧ val ≠ 2 then
    .halted (TIA.panic (TIA.printf s (.invalid_vsync val)))
  else
    .returned { s with vsync_mode := decide (val = 2) }

/-- The call `vblank(val)` (tia.cc:70-78), halting at `panic()`. -/
def vblank (s : TIA) (val : Nat) : Outcome :=
  if val &&& 0x3C ≠ 0 then
    .halted (TIA.panic (TIA.printf s (.invalid_vblank val)))
  else
    .returned { s with vblank_mode := decide (val = 2) }

/-- Calling a bound handler `f(val)`; only `vsync` and `vblank` call `panic()`. -/
def call (t : Timing) (f : WriteFunc) (s : TIA) (val : Nat) : Outcome :=
  match f with
  | .vsync => vsync s val
  | .vblank => vblank s val
  | .wsync => .returned (TIA.wsync t s val)
  | .colupf => .returned (TIA.colupf s val)
  | .colubk => .returned (TIA.colubk s val)
  | .ctrlpf => .returned (TIA.ctrlpf s val)
  | .pf0 => .returned (TIA.pf0 s val)
  | .pf1 => .returned (TIA.pf1 s val)
  | .pf2 => .returned (TIA.pf2 s val)

/-- The call `dma_write_hook(addr, val)` (tia.cc:28-37), halting at `panic()`:
on a miss the two assignments after the `if` are not reached. -/
def dma_write_hook (s : TIA) (addr : Nat) (val : Nat) : Outcome :=
  let write_func := s.dma_write_table addr
  if write_func.isNone then
    .halted (TIA.panic (TIA.printf s (.invalid_dma_write addr)))
  else
    .returned { s with dma_write_request := write_func, dma_val := val }

/-- The call `process_tia_cycle()` (tia.cc:39-59), halting at `panic()`: when
one of the two guards fires nothing after it is reached; otherwise the cycle is
`TIA.process_tia_cycle`. -/
def process_tia_cycle (t : Timing) (s : TIA) : Outcome :=
  if 0 < s.ntsc.gun_y ∧ s.ntsc.gun_y < t.vsync_lines ∧ s.vsync_mode = false then
    .halted (TIA.panic (TIA.printf s .no_vertical_sync))
  else if t.vsync_lines < s.ntsc.gun_y ∧ s.vsync_mode = true then
    .halted (TIA.panic (TIA.printf s .too_long_vertical_sync))
  else
    .returned (TIA.process_tia_cycle t s)

/-- The `while` loop of `process_tia` (tia.cc:158-159), run for at most `fuel`
iterations and halting with the first cycle that halts. -/
def catch_up (t : Timing) : Nat → TIA → Option Outcome
  | 0, s => if s.tia_cycle_num ≠ t.tia_cycle_ratio * s.cycle_num then none
            else some (.returned s)
  | fuel + 1, s =>
    if s.tia_cycle_num ≠ t.tia_cycle_ratio * s.cycle_num then
      match process_tia_cycle t s with
      | .halted h => some (.halted h)
      | .returned s' => catch_up t fuel s'
    else some (.returned s)

/-- The call `process_tia()` (tia.cc:151-160), halting at `panic()`: when the
pending handler halts, the slot is not cleared and the loop is not entered. -/
def process_tia (t : Timing) (fuel : Nat) (s : TIA) : Option Outcome :=
  match s.dma_write_request with
  | some f =>
    match call t f s s.dma_val with
    | .halted h => some (.halted h)
    | .returned s' => catch_up t fuel { s' with dma_write_request := none, dma_val := 0 }
  | none => catch_up t fuel s

/-- One call after another, as in the driving loop: nothing runs after a halt. -/
def and_then (o : Outcome) (k : TIA → Option Outcome) : Option Outcome :=
  match o with
  | .returned s => k s
  | .halted s => some (.halted s)

end Run

/-- The timing constants of the WSYNC and vertical-sync scenarios. -/
def ntsc_timing : Timing :=
  { tia_cycle_ratio := 3
    cpu_scanline_cycles := 76
    hblank := 68
    vsync_lines := 3
    columns := 228
    scanlines := 262 }

/-- A freshly initialised chip with empty dispatch tables. -/
def blank_chip : TIA :=
  { cycle_num := 0
    tia_cycle_num := 0
    vsync_mode := false
    vblank_mode := false
    playfield_mask := 0
    playfield_mirrored := false
    playfield_color := 0
    background_color := 0
    dma_write_request := none
    dma_val := 0
    dma_read_table := fun _ => none
    dma_write_table := fun _ => none
    ntsc := { gun_x := 0, gun_y := 0, pixels := [] }
    stdout := []
    panics := 0 }

/-- The chip after construction. -/
def fresh_chip : TIA := TIA.construct ntsc_timing blank_chip

/-- The chip at CPU cycle 40 with a WSYNC write pending. -/
def wsync_pending_chip : TIA :=
  { fresh_chip with cycle_num := 40, tia_cycle_num := 120,
                    dma_write_request := some WriteFunc.wsync, dma_val := 7 }

/-- The chip with `VSYNC := 2` pending. -/
def vsync_pending_chip : TIA :=
  { fresh_chip with dma_write_request := some WriteFunc.vsync, dma_val := 2 }

/-- The chip in vertical sync with the beam on line `y`. -/
def chip_on_line (y : Nat) : TIA :=
  { fresh_chip with vsync_mode := true, ntsc := { gun_x := 0, gun_y := y, pixels := [] } }

/-- The constructed chip with one read handler, at offset 0x30, returning 0x5A. -/
def chip_with_read_handler : TIA :=
  { fresh_chip with dma_read_table := fun a => if a = 0x30 then some (fun _ => 0x5A) else none }

/-- The constructed chip with blanking switched on. -/
def blanked_chip : TIA :=
  { fresh_chip with vblank_mode := true }

/-- The constructed chip drawing visible position `x` of a line, with only
bit 0 of the playfield mask set, playfield colour 0x1E and background 0x84. -/
def playfield_chip (x : Nat) : TIA :=
  { fresh_chip with playfield_mask := 1, playfield_color := 0x1E, background_color := 0x84,
                    ntsc := { gun_x := 68 + x, gun_y := 0, pixels := [] } }

/-- The constructed chip at beam position 10, inside horizontal blank, with
every playfield cell set, playfield colour 0x1E and background 0x84. -/
def hblank_chip : TIA :=
  { fresh_chip with playfield_mask := 0xFFFFFFFFFF, playfield_color := 0x1E,
                    background_color := 0x84,
                    ntsc := { gun_x := 10, gun_y := 0, pixels := [] } }

/-- A chip in mirrored mode whose mask has bit 0 set and, left over from
earlier, all of the bits 20 to 39 and bit 63. -/
def stale_chip : TIA :=
  { fresh_chip with playfield_mirrored := true, playfield_mask := 0x800000FFFFF00001 }

/-! ## Counters under the handlers and under one chip cycle -/

namespace TIA

theorem call_tia_cycle_num (t : Timing) (f : WriteFunc) (s : TIA) (v : Nat) :
    (call t f s v).tia_cycle_num = s.tia_cycle_num := by
  cases f <;>
    simp only [call, vsync, vblank, wsync, colupf, colubk, ctrlpf, pf0, pf1, pf2,
      handle_playfield_mirror, panic, printf] <;>
    (repeat' split) <;> rfl

theorem call_cycle_num_le (t : Timing) (f : WriteFunc) (s : TIA) (v : Nat) :
    s.cycle_num ≤ (call t f s v).cycle_num := by
  cases f <;>
    simp only [call, vsync, vblank, wsync, colupf, colubk, ctrlpf, pf0, pf1, pf2,
      handle_playfield_mirror, panic, printf] <;>
    (repeat' split) <;> first
      | exact Nat.le_refl _
      | exact Nat.le_add_right _ _

theorem call_dma_write_request (t : Timing) (f : WriteFunc) (s : TIA) (v : Nat) :
    (call t f s v).dma_write_request = s.dma_write_request := by
  cases f <;>
    simp only [call, vsync, vblank, wsync, colupf, colubk, ctrlpf, pf0, pf1, pf2,
      handle_playfield_mirror, panic, printf] <;>
    (repeat' split) <;> rfl

theorem process_tia_cycle_tia_cycle_num (t : Timing) (s : TIA) :
    (process_tia_cycle t s).tia_cycle_num = s.tia_cycle_num + 1 := by
  simp only [process_tia_cycle, panic, printf]
  (repeat' split) <;> rfl

theorem process_tia_cycle_cycle_num (t : Timing) (s : TIA) :
    (process_tia_cycle t s).cycle_num = s.cycle_num := by
  simp only [process_tia_cycle, panic, printf]
  (repeat' split) <;> rfl

theorem process_tia_cycle_dma_write_request (t : Timing) (s : TIA) :
    (process_tia_cycle t s).dma_write_request = s.dma_write_request := by
  simp only [process_tia_cycle, panic, printf]
  (repeat' split) <;> rfl

theorem apply_pending_tia_cycle_num (t : Timing) (s : TIA) :
    (apply_pending t s).tia_cycle_num = s.tia_cycle_num := by
  unfold apply_pending
  split
  · exact call_tia_cycle_num t _ s _
  · rfl

theorem apply_pending_cycle_num_le (t : Timing) (s : TIA) :
    s.cycle_num ≤ (apply_pending t s).cycle_num := by
  unfold apply_pending
  split
  · exact call_cycle_num_le t _ s _
  · exact Nat.le_refl _

end TIA

/-- Applying the pending write keeps the chip counter at or below its target:
no handler touches `tia_cycle_num` and none moves `cycle_num` backwards. -/
theorem apply_pending_le (t : Timing) (s : TIA)
    (h : s.tia_cycle_num ≤ t.tia_cycle_ratio * s.cycle_num) :
    (TIA.apply_pending t s).tia_cycle_num
      ≤ t.tia_cycle_ratio * (TIA.apply_pending t s).cycle_num := by
  rw [TIA.apply_pending_tia_cycle_num]
  exact Nat.le_trans h (Nat.mul_le_mul_left _ (TIA.apply_pending_cycle_num_le t s))

/-- The mask `0x3C` selects the bits 2 to 5. -/
theorem testBit_0x3C (i : Nat) : (0x3C : Nat).testBit i = decide (2 ≤ i ∧ i ≤ 5) := by
  by_cases hi : i < 6
  · interval_cases i <;> decide
  · have h6 : 6 ≤ i := Nat.le_of_not_lt hi
    have hlt : (0x3C : Nat) < 2 ^ i :=
      Nat.lt_of_lt_of_le (by decide : (0x3C : Nat) < 2 ^ 6) (Nat.pow_le_pow_right (by decide) h6)
    rw [Nat.testBit_lt_two_pow hlt]
    symm
    rw [decide_eq_false_iff_not]
    omega

/-- A byte has a bit in common with `0x3C` exactly when one of its bits 2 to 5
is set. -/
theorem land_0x3C_ne_zero_iff (v : Nat) :
    v &&& 0x3C ≠ 0 ↔ ∃ i, 2 ≤ i ∧ i ≤ 5 ∧ v.testBit i = true := by
  constructor
  · intro h
    obtain ⟨i, hi⟩ := Nat.ne_zero_implies_bit_true h
    rw [Nat.testBit_and, testBit_0x3C, Bool.and_eq_true, decide_eq_true_eq] at hi
    exact ⟨i, hi.2.1, hi.2.2, hi.1⟩
  · rintro ⟨i, h2, h5, hb⟩ h0
    have hbit : (v &&& 0x3C).testBit i = true := by
      rw [Nat.testBit_and, testBit_0x3C, hb]
      simp [h2, h5]
    rw [h0] at hbit
    simp at hbit

/-! ## Claims -/

/-- C2: for every CPU cycle count and every written byte, WSYNC sets
`cycle_num` to `c + hblank / tia_cycle_ratio + (cpu_scanline_cycles - c %
cpu_scanline_cycles)`, which is the next scanline boundary
`cpu_scanline_cycles * (c / cpu_scanline_cycles + 1)` plus the hblank offset in
CPU cycles; it changes no register of the chip (nothing but `cycle_num`); with
76 CPU cycles per line, hblank 68, ratio 3 and `c = 40` the result is 98. -/
theorem wsync_advances_to_scanline_boundary (t : Timing) (s : TIA) (v : Nat)
    (hS : 0 < t.cpu_scanline_cycles) :
    (TIA.wsync t s v).cycle_num
        = s.cycle_num + t.hblank / t.tia_cycle_ratio
            + (t.cpu_scanline_cycles - s.cycle_num % t.cpu_scanline_cycles)
    ∧ (TIA.wsync t s v).cycle_num
        = t.cpu_scanline_cycles * (s.cycle_num / t.cpu_scanline_cycles + 1)
            + t.hblank / t.tia_cycle_ratio
    ∧ TIA.wsync t s v = { s with cycle_num := (TIA.wsync t s v).cycle_num }
    ∧ (TIA.wsync t s v).vsync_mode = s.vsync_mode
    ∧ (TIA.wsync t s v).vblank_mode = s.vblank_mode
    ∧ (TIA.wsync t s v).playfield_mask = s.playfield_mask
    ∧ (TIA.wsync t s v).playfield_mirrored = s.playfield_mirrored
    ∧ (TIA.wsync t s v).playfield_color = s.playfield_color
    ∧ (TIA.wsync t s v).background_color = s.background_color
    ∧ (TIA.wsync ntsc_timing { s with cycle_num := 40 } v).cycle_num = 98 := by
  refine ⟨?_, ?_, rfl, rfl, rfl, rfl, rfl, rfl, rfl, rfl⟩
  · simp only [TIA.wsync]
    omega
  · simp only [TIA.wsync]
    have hmod : s.cycle_num % t.cpu_scanline_cycles < t.cpu_scanline_cycles :=
      Nat.mod_lt _ hS
    have hdiv : t.cpu_scanline_cycles * (s.cycle_num / t.cpu_scanline_cycles)
        + s.cycle_num % t.cpu_scanline_cycles = s.cycle_num := Nat.div_add_mod _ _
    rw [Nat.mul_add, Nat.mul_one]
    omega

/-- C2 at the chip with CPU cycle 40 and the scenario's constants. -/
theorem wsync_advances_to_scanline_boundary_witness :
    0 < ntsc_timing.cpu_scanline_cycles
    ∧ (TIA.wsync ntsc_timing wsync_pending_chip 7).cycle_num = 76 * (40 / 76 + 1) + 68 / 3 :=
  ⟨by decide, (wsync_advances_to_scanline_boundary ntsc_timing wsync_pending_chip 7 (by decide)).2.1⟩

/-- C4: of two bus writes to offsets with registered handlers, issued with no
`process_tia` in between, only the second is pending: the state after both
writes is the state after the second alone, so the following `process_tia`
gives the same result as after the second write alone, namely the catch-up
loop run after one call of the second handler with the second value; the first
handler and value appear nowhere in it. -/
theorem second_write_replaces_pending (t : Timing) (s : TIA) (a1 v1 a2 v2 : Nat)
    (f1 f2 : WriteFunc)
    (h1 : s.dma_write_table a1 = some f1) (h2 : s.dma_write_table a2 = some f2) :
    TIA.dma_write_hook (TIA.dma_write_hook s a1 v1) a2 v2 = TIA.dma_write_hook s a2 v2
    ∧ (∀ fuel, TIA.process_tia t fuel (TIA.dma_write_hook (TIA.dma_write_hook s a1 v1) a2 v2)
        = TIA.process_tia t fuel (TIA.dma_write_hook s a2 v2))
    ∧ (∀ fuel, TIA.process_tia t fuel (TIA.dma_write_hook (TIA.dma_write_hook s a1 v1) a2 v2)
        = TIA.catch_up t fuel
            { TIA.call t f2 { s with dma_write_request := some f2, dma_val := v2 } v2 with
              dma_write_request := none, dma_val := 0 }) := by
  have hw1 : TIA.dma_write_hook s a1 v1
      = { s with dma_write_request := some f1, dma_val := v1 } := by
    simp [TIA.dma_write_hook, h1]
  have hw2 : TIA.dma_write_hook s a2 v2
      = { s with dma_write_request := some f2, dma_val := v2 } := by
    simp [TIA.dma_write_hook, h2]
  have hboth : TIA.dma_write_hook (TIA.dma_write_hook s a1 v1) a2 v2
      = TIA.dma_write_hook s a2 v2 := by
    rw [hw2, hw1]
    simp [TIA.dma_write_hook, h2]
  refine ⟨hboth, ?_, ?_⟩
  · intro fuel
    rw [hboth]
  · intro fuel
    rw [hboth, hw2]
    rfl

/-- C4 at the constructed chip: `VSYNC := 7` (an illegal value) then
`COLUBK := 0x1E`; the catch-up pass reports no illegal VSYNC value. -/
theorem second_write_replaces_pending_witness :
    fresh_chip.dma_write_table 0 = some WriteFunc.vsync
    ∧ fresh_chip.dma_write_table 9 = some WriteFunc.colubk
    ∧ TIA.dma_write_hook (TIA.dma_write_hook fresh_chip 0 7) 9 0x1E
        = TIA.dma_write_hook fresh_chip 9 0x1E :=
  ⟨by decide, by decide,
    (second_write_replaces_pending ntsc_timing fresh_chip 0 7 9 0x1E WriteFunc.vsync
      WriteFunc.colubk (by decide) (by decide)).1⟩

/-- C6 as stated fails: on the constructed chip offset 3 has no read and no
write handler, and both the bus read and the bus write there call `panic()`
once, exactly as the VSYNC handler does for the illegal value 7. -/
theorem unregistered_access_calls_panic :
    (fresh_chip.dma_read_table 3).isNone = true
    ∧ fresh_chip.dma_write_table 3 = none
    ∧ ¬ ((TIA.dma_read_hook fresh_chip 3).2.panics = fresh_chip.panics)
    ∧ ¬ ((TIA.dma_write_hook fresh_chip 3 0).panics = fresh_chip.panics)
    ∧ (TIA.dma_read_hook fresh_chip 3).2.panics = fresh_chip.panics + 1
    ∧ (TIA.dma_write_hook fresh_chip 3 0).panics = fresh_chip.panics + 1
    ∧ (TIA.dma_read_hook fresh_chip 3).2.panics = (TIA.vsync fresh_chip 7).panics
    ∧ (TIA.dma_write_hook fresh_chip 3 0).panics = (TIA.vsync fresh_chip 7).panics := by
  refine ⟨by decide, by decide, by decide, by decide, by decide, by decide, by decide,
    by decide⟩

/-- C6 as amended: an access to an offset with no registered handler raises the
fatal condition. The bus read prints the invalid-read line, calls `panic()`
once and returns 0; the bus write prints the invalid-write line and calls
`panic()` once. For an offset with a registered read handler the read returns
the handler's result and the state is untouched. -/
theorem unregistered_access_is_fatal (s : TIA) (addr val : Nat) :
    (s.dma_read_table addr = none →
        (TIA.dma_read_hook s addr).1 = 0
        ∧ (TIA.dma_read_hook s addr).2 = TIA.panic (TIA.printf s (Report.invalid_dma_read addr))
        ∧ (TIA.dma_read_hook s addr).2.panics = s.panics + 1
        ∧ (TIA.dma_read_hook s addr).2.stdout = Report.invalid_dma_read addr :: s.stdout)
    ∧ (s.dma_write_table addr = none →
        (TIA.dma_write_hook s addr val).panics = s.panics + 1
        ∧ (TIA.dma_write_hook s addr val).stdout = Report.invalid_dma_write addr :: s.stdout)
    ∧ (∀ f : ReadFunc, s.dma_read_table addr = some f →
        TIA.dma_read_hook s addr = (f (), s)) := by
  refine ⟨?_, ?_, ?_⟩
  · intro h
    simp [TIA.dma_read_hook, h, TIA.panic, TIA.printf]
  · intro h
    simp [TIA.dma_write_hook, h, TIA.panic, TIA.printf]
  · intro f h
    simp [TIA.dma_read_hook, h]

/-- C6 as amended, at offset 3 of the constructed chip (no handler) and at
offset 0x30 of the chip with a read handler there. -/
theorem unregistered_access_is_fatal_witness :
    (fresh_chip.dma_read_table 3 = none ∧ (TIA.dma_read_hook fresh_chip 3).1 = 0
        ∧ (TIA.dma_read_hook fresh_chip 3).2.panics = fresh_chip.panics + 1)
    ∧ (fresh_chip.dma_write_table 3 = none
        ∧ (TIA.dma_write_hook fresh_chip 3 0).panics = fresh_chip.panics + 1)
    ∧ (chip_with_read_handler.dma_read_table 0x30 = some (fun _ => 0x5A)
        ∧ TIA.dma_read_hook chip_with_read_handler 0x30 = (0x5A, chip_with_read_handler)) :=
  ⟨⟨rfl, ((unregistered_access_is_fatal fresh_chip 3 0).1 rfl).1,
      ((unregistered_access_is_fatal fresh_chip 3 0).1 rfl).2.2.1⟩,
   ⟨by decide, ((unregistered_access_is_fatal fresh_chip 3 0).2.1 (by decide)).1⟩,
   ⟨rfl, (unregistered_access_is_fatal chip_with_read_handler 0x30 0).2.2 (fun _ => 0x5A) rfl⟩⟩

/-- C7: for every byte `v` the VSYNC handler calls `panic()` if and only if
`v` is neither 0 nor 2; when `v` is 0 or 2 the state after the call is the state
before with `vsync_mode` set to `v = 2`: nothing is printed and `panic()` is not
called. -/
theorem vsync_fatal_iff_illegal (s : TIA) (v : Nat) :
    ((TIA.vsync s v).panics = s.panics + 1 ↔ (v ≠ 0 ∧ v ≠ 2))
    ∧ ((TIA.vsync s v).panics ≠ s.panics ↔ (v ≠ 0 ∧ v ≠ 2))
    ∧ ((v = 0 ∨ v = 2) →
        TIA.vsync s v = { s with vsync_mode := decide (v = 2) }
        ∧ (TIA.vsync s v).vsync_mode = decide (v = 2)
        ∧ (TIA.vsync s v).panics = s.panics
        ∧ (TIA.vsync s v).stdout = s.stdout) := by
  by_cases h : v ≠ 0 ∧ v ≠ 2
  · have hv : TIA.vsync s v = TIA.panic (TIA.printf s (Report.invalid_vsync v)) := by
      simp only [TIA.vsync, if_pos h]
    refine ⟨?_, ?_, ?_⟩
    · rw [hv]
      exact ⟨fun _ => h, fun _ => rfl⟩
    · rw [hv]
      exact ⟨fun _ => h, fun _ => by simp [TIA.panic, TIA.printf]⟩
    · intro h02
      omega
  · have hv : TIA.vsync s v = { s with vsync_mode := decide (v = 2) } := by
      simp only [TIA.vsync, if_neg h]
    refine ⟨?_, ?_, ?_⟩
    · rw [hv]
      exact ⟨fun hp => absurd hp (by simp), fun hh => absurd hh h⟩
    · rw [hv]
      exact ⟨fun hp => absurd rfl hp, fun hh => absurd hh h⟩
    · intro _
      rw [hv]
      exact ⟨rfl, rfl, rfl, rfl⟩

/-- C7 at the constructed chip and the legal byte 2. -/
theorem vsync_fatal_iff_illegal_witness :
    ((2 : Nat) = 0 ∨ (2 : Nat) = 2)
    ∧ (TIA.vsync fresh_chip 2).vsync_mode = decide ((2 : Nat) = 2)
    ∧ (TIA.vsync fresh_chip 2).panics = fresh_chip.panics :=
  ⟨by decide, ((vsync_fatal_iff_illegal fresh_chip 2).2.2 (by decide)).2.1,
    ((vsync_fatal_iff_illegal fresh_chip 2).2.2 (by decide)).2.2.1⟩

/-- C8: for every byte `v` the VBLANK handler calls `panic()` if and only if
`v & 0x3C` is not zero, that is, if and only if one of the bits 2 to 5 of `v`
is set; every byte with these bits clear, also one with bit 0, 6 or 7 set
(0x01, 0x40, 0x80, 0xC3), is accepted: nothing is printed and `panic()` is not
called. -/
theorem vblank_fatal_iff_bits_2_to_5 (s : TIA) (v : Nat) :
    ((TIA.vblank s v).panics = s.panics + 1 ↔ v &&& 0x3C ≠ 0)
    ∧ ((TIA.vblank s v).panics ≠ s.panics ↔ v &&& 0x3C ≠ 0)
    ∧ (v &&& 0x3C ≠ 0 ↔ ∃ i, 2 ≤ i ∧ i ≤ 5 ∧ v.testBit i = true)
    ∧ (v &&& 0x3C = 0 →
        (TIA.vblank s v).panics = s.panics ∧ (TIA.vblank s v).stdout = s.stdout)
    ∧ (TIA.vblank s 0x01).panics = s.panics
    ∧ (TIA.vblank s 0x40).panics = s.panics
    ∧ (TIA.vblank s 0x80).panics = s.panics
    ∧ (TIA.vblank s 0xC3).panics = s.panics := by
  have hacc : ∀ w : Nat, w &&& 0x3C = 0 →
      TIA.vblank s w = { s with vblank_mode := decide (w = 2) } := by
    intro w hw
    simp only [TIA.vblank, hw, ne_eq, not_true_eq_false, if_false]
  have hrej : ∀ w : Nat, w &&& 0x3C ≠ 0 →
      TIA.vblank s w = TIA.panic (TIA.printf s (Report.invalid_vblank w)) := by
    intro w hw
    simp only [TIA.vblank, if_pos hw]
  refine ⟨?_, ?_, ?_, ?_, ?_, ?_, ?_, ?_⟩
  · by_cases h : v &&& 0x3C ≠ 0
    · rw [hrej v h]
      exact ⟨fun _ => h, fun _ => rfl⟩
    · rw [hacc v (by simpa using h)]
      exact ⟨fun hp => absurd hp (by simp), fun hh => absurd hh h⟩
  · by_cases h : v &&& 0x3C ≠ 0
    · rw [hrej v h]
      exact ⟨fun _ => h, fun _ => by simp [TIA.panic, TIA.printf]⟩
    · rw [hacc v (by simpa using h)]
      exact ⟨fun hp => absurd rfl hp, fun hh => absurd hh h⟩
  · exact land_0x3C_ne_zero_iff v
  · intro h
    rw [hacc v h]
    exact ⟨rfl, rfl⟩
  · rw [hacc 0x01 (by decide)]
  · rw [hacc 0x40 (by decide)]
  · rw [hacc 0x80 (by decide)]
  · rw [hacc 0xC3 (by decide)]

/-- C8 at the constructed chip and the byte 0xC1 (bits 0, 6 and 7 set). -/
theorem vblank_fatal_iff_bits_2_to_5_witness :
    (0xC1 &&& 0x3C = 0)
    ∧ (TIA.vblank fresh_chip 0xC1).panics = fresh_chip.panics
    ∧ (TIA.vblank fresh_chip 0xC1).stdout = fresh_chip.stdout :=
  ⟨by decide, (vblank_fatal_iff_bits_2_to_5 fresh_chip 0xC1).2.2.2.1 (by decide)⟩

/-- C9, the code at failing inputs: 0x42 and 0x82 pass the legality check of
the handler (bits 2 to 5 clear, nothing printed, no `panic()`) and have bit 1
set, yet the handler stores `val == 2`, so `vblank_mode` is false afterwards
and blanking is not on exactly when bit 1 is set; on a chip that was blanking
the write switches blanking off. -/
theorem vblank_compares_whole_byte :
    (0x42 &&& 0x3C = 0 ∧ 0x42 &&& 0x02 ≠ 0)
    ∧ (0x82 &&& 0x3C = 0 ∧ 0x82 &&& 0x02 ≠ 0)
    ∧ ¬ ((TIA.vblank fresh_chip 0x42).vblank_mode = true ↔ 0x42 &&& 0x02 ≠ 0)
    ∧ ¬ ((TIA.vblank fresh_chip 0x82).vblank_mode = true ↔ 0x82 &&& 0x02 ≠ 0)
    ∧ (TIA.vblank fresh_chip 0x42).vblank_mode = false
    ∧ (TIA.vblank fresh_chip 0x82).vblank_mode = false
    ∧ (TIA.vblank fresh_chip 0x42).panics = fresh_chip.panics
    ∧ (TIA.vblank fresh_chip 0x82).panics = fresh_chip.panics
    ∧ blanked_chip.vblank_mode = true
    ∧ (TIA.vblank blanked_chip 0x42).vblank_mode = false
    ∧ (TIA.vblank blanked_chip 0x82).vblank_mode = false := by
  refine ⟨by decide, by decide, by decide, by decide, by decide, by decide, by decide,
    by decide, by decide, by decide, by decide⟩

/-- C10: one chip cycle prints "No vertical sync" and calls `panic()` once when
`0 < gun_y < vsync_lines` and `vsync_mode` is false, prints "Too long of
vertical sync" and calls `panic()` once when `gun_y > vsync_lines` and
`vsync_mode` is true, and prints nothing and does not call `panic()` in every
other case; with `vsync_lines = 3` and `vsync_mode` true the cycles on lines 0,
1, 2 and 3 raise nothing and the cycle on line 4 raises "too long". -/
theorem process_tia_cycle_vsync_window (t : Timing) (s : TIA) :
    ((0 < s.ntsc.gun_y ∧ s.ntsc.gun_y < t.vsync_lines ∧ s.vsync_mode = false) →
        (TIA.process_tia_cycle t s).panics = s.panics + 1
        ∧ (TIA.process_tia_cycle t s).stdout = Report.no_vertical_sync :: s.stdout)
    ∧ ((t.vsync_lines < s.ntsc.gun_y ∧ s.vsync_mode = true) →
        (TIA.process_tia_cycle t s).panics = s.panics + 1
        ∧ (TIA.process_tia_cycle t s).stdout = Report.too_long_vertical_sync :: s.stdout)
    ∧ (¬ (0 < s.ntsc.gun_y ∧ s.ntsc.gun_y < t.vsync_lines ∧ s.vsync_mode = false)
        ∧ ¬ (t.vsync_lines < s.ntsc.gun_y ∧ s.vsync_mode = true) →
        (TIA.process_tia_cycle t s).panics = s.panics
        ∧ (TIA.process_tia_cycle t s).stdout = s.stdout)
    ∧ (∀ y, y ≤ 3 →
        (TIA.process_tia_cycle ntsc_timing (chip_on_line y)).panics = (chip_on_line y).panics
        ∧ (TIA.process_tia_cycle ntsc_timing (chip_on_line y)).stdout = (chip_on_line y).stdout)
    ∧ (TIA.process_tia_cycle ntsc_timing (chip_on_line 4)).panics = (chip_on_line 4).panics + 1
    ∧ (TIA.process_tia_cycle ntsc_timing (chip_on_line 4)).stdout
        = Report.too_long_vertical_sync :: (chip_on_line 4).stdout := by
  have key : ∀ (t : Timing) (s : TIA),
      (TIA.process_tia_cycle t s).panics
          = (if 0 < s.ntsc.gun_y ∧ s.ntsc.gun_y < t.vsync_lines ∧ s.vsync_mode = false then
              s.panics + 1
            else if t.vsync_lines < s.ntsc.gun_y ∧ s.vsync_mode = true then s.panics + 1
            else s.panics)
      ∧ (TIA.process_tia_cycle t s).stdout
          = (if 0 < s.ntsc.gun_y ∧ s.ntsc.gun_y < t.vsync_lines ∧ s.vsync_mode = false then
              Report.no_vertical_sync :: s.stdout
            else if t.vsync_lines < s.ntsc.gun_y ∧ s.vsync_mode = true then
              Report.too_long_vertical_sync :: s.stdout
            else s.stdout) := by
    intro t s
    simp only [TIA.process_tia_cycle, TIA.panic, TIA.printf]
    constructor <;> (repeat' split) <;> rfl
  refine ⟨?_, ?_, ?_, ?_, by decide, by decide⟩
  · intro h
    rw [(key t s).1, (key t s).2, if_pos h, if_pos h]
    exact ⟨rfl, rfl⟩
  · intro h
    have hn : ¬ (0 < s.ntsc.gun_y ∧ s.ntsc.gun_y < t.vsync_lines ∧ s.vsync_mode = false) := by
      rintro ⟨_, _, hf⟩
      rw [h.2] at hf
      exact absurd hf (by decide)
    rw [(key t s).1, (key t s).2, if_neg hn, if_neg hn, if_pos h, if_pos h]
    exact ⟨rfl, rfl⟩
  · rintro ⟨hn1, hn2⟩
    rw [(key t s).1, (key t s).2, if_neg hn1, if_neg hn1, if_neg hn2, if_neg hn2]
    exact ⟨rfl, rfl⟩
  · intro y hy
    interval_cases y <;> exact ⟨by decide, by decide⟩

/-- C10 on the constructed chip: on line 1 outside vertical sync, on line 4
inside it, on line 2 inside it, and on the lines 0 to 3 of the scenario. -/
theorem process_tia_cycle_vsync_window_witness :
    ((0 < 1 ∧ 1 < ntsc_timing.vsync_lines)
      ∧ (TIA.process_tia_cycle ntsc_timing
          { fresh_chip with ntsc := { gun_x := 0, gun_y := 1, pixels := [] } }).stdout
          = [Report.no_vertical_sync])
    ∧ (ntsc_timing.vsync_lines < (chip_on_line 4).ntsc.gun_y
      ∧ (TIA.process_tia_cycle ntsc_timing (chip_on_line 4)).stdout
          = [Report.too_long_vertical_sync])
    ∧ (TIA.process_tia_cycle ntsc_timing (chip_on_line 2)).panics = 0
    ∧ (TIA.process_tia_cycle ntsc_timing (chip_on_line 3)).panics = 0 :=
  ⟨⟨by decide,
      ((process_tia_cycle_vsync_window ntsc_timing
        { fresh_chip with ntsc := { gun_x := 0, gun_y := 1, pixels := [] } }).1
        ⟨by decide, by decide, rfl⟩).2⟩,
   ⟨by decide,
      ((process_tia_cycle_vsync_window ntsc_timing (chip_on_line 4)).2.1
        ⟨by decide, rfl⟩).2⟩,
   ((process_tia_cycle_vsync_window ntsc_timing (chip_on_line 2)).2.2.1
      ⟨by decide, by decide⟩).1,
   ((process_tia_cycle_vsync_window ntsc_timing (chip_on_line 2)).2.2.2.1 3 (by decide)).1⟩

/-! ## The pixel of one chip cycle -/

theorem write_pixel_pixels (t : Timing) (n : NTSC) (c : Option Nat) :
    (NTSC.write_pixel t n c).pixels = c :: n.pixels := by
  unfold NTSC.write_pixel
  split <;> rfl

/-- The test `(m >> k) & 0x01` of the source reads bit `k` of `m`. -/
theorem shiftRight_and_one_ne_zero (m k : Nat) :
    ((m >>> k) &&& 0x01 ≠ 0) ↔ m.testBit k = true := by
  unfold Nat.testBit
  rw [Nat.and_comm]
  simp

/-- At or right of the end of horizontal blank the `int` quotient
`visible_x / 4` is the natural quotient. -/
theorem visible_cell (x h : Nat) (hx : h ≤ x) :
    (Int.tdiv ((x : Int) - (h : Int)) 4).toNat = (x - h) / 4 := by
  have e : ((x : Int) - (h : Int)) = ((x - h : Nat) : Int) := by omega
  rw [e]
  rfl

/-- The argument of the one `write_pixel` call of a chip cycle. -/
theorem process_tia_cycle_pixels (t : Timing) (s : TIA) :
    (TIA.process_tia_cycle t s).ntsc.pixels
      = (if s.vblank_mode = false then
          (if t.hblank ≤ s.ntsc.gun_x
                ∧ s.playfield_mask.testBit ((s.ntsc.gun_x - t.hblank) / 4) = true then
              some s.playfield_color
            else some s.background_color)
        else none) :: s.ntsc.pixels := by
  have hcond : (0 ≤ (s.ntsc.gun_x : Int) - (t.hblank : Int)
        ∧ (s.playfield_mask
            >>> (Int.tdiv ((s.ntsc.gun_x : Int) - (t.hblank : Int)) 4).toNat) &&& 0x01 ≠ 0)
      ↔ (t.hblank ≤ s.ntsc.gun_x
        ∧ s.playfield_mask.testBit ((s.ntsc.gun_x - t.hblank) / 4) = true) := by
    constructor
    · rintro ⟨h0, hb⟩
      have hx : t.hblank ≤ s.ntsc.gun_x := by omega
      rw [visible_cell _ _ hx] at hb
      exact ⟨hx, (shiftRight_and_one_ne_zero _ _).1 hb⟩
    · rintro ⟨hx, hb⟩
      refine ⟨by omega, ?_⟩
      rw [visible_cell _ _ hx]
      exact (shiftRight_and_one_ne_zero _ _).2 hb
  by_cases g1 : 0 < s.ntsc.gun_y ∧ s.ntsc.gun_y < t.vsync_lines ∧ s.vsync_mode = false
  · simp only [TIA.process_tia_cycle, if_pos g1, TIA.panic, TIA.printf, hcond]
    (repeat' split) <;> simp_all [write_pixel_pixels]
  · by_cases g2 : t.vsync_lines < s.ntsc.gun_y ∧ s.vsync_mode = true
    · simp only [TIA.process_tia_cycle, if_neg g1, if_pos g2, TIA.panic, TIA.printf, hcond]
      (repeat' split) <;> simp_all [write_pixel_pixels]
    · simp only [TIA.process_tia_cycle, if_neg g1, if_neg g2, hcond]
      (repeat' split) <;> simp_all [write_pixel_pixels]

/-- C11: in a chip cycle with `vblank_mode` false and the beam in the visible
region (`visible_x = gun_x - hblank`, `0 ≤ visible_x < 160`) the colour handed
to `write_pixel` is `playfield_color` when bit `visible_x / 4` of
`playfield_mask` is set and `background_color` otherwise, and the cell index
`visible_x / 4` is at most 39; with only bit 0 of the mask set the visible
positions 0 to 3 get `playfield_color` and the positions 4 to 7 get
`background_color`. -/
theorem process_tia_cycle_visible_pixel (t : Timing) (s : TIA)
    (hb : s.vblank_mode = false) (hl : t.hblank ≤ s.ntsc.gun_x)
    (hr : s.ntsc.gun_x - t.hblank < 160) :
    (TIA.process_tia_cycle t s).ntsc.pixels
        = some (if s.playfield_mask.testBit ((s.ntsc.gun_x - t.hblank) / 4) = true then
                  s.playfield_color
                else s.background_color) :: s.ntsc.pixels
    ∧ (s.ntsc.gun_x - t.hblank) / 4 ≤ 39
    ∧ (s.playfield_mask = 1 →
        (s.ntsc.gun_x - t.hblank ≤ 3 →
          (TIA.process_tia_cycle t s).ntsc.pixels = some s.playfield_color :: s.ntsc.pixels)
        ∧ (4 ≤ s.ntsc.gun_x - t.hblank ∧ s.ntsc.gun_x - t.hblank ≤ 7 →
          (TIA.process_tia_cycle t s).ntsc.pixels
            = some s.background_color :: s.ntsc.pixels)) := by
  have hpix := process_tia_cycle_pixels t s
  rw [if_pos hb] at hpix
  refine ⟨?_, by omega, ?_⟩
  · rw [hpix]
    by_cases hbit : s.playfield_mask.testBit ((s.ntsc.gun_x - t.hblank) / 4) = true
    · rw [if_pos ⟨hl, hbit⟩, if_pos hbit]
    · rw [if_neg (fun h => hbit h.2), if_neg hbit]
  · intro hm
    constructor
    · intro h3
      have hc : (s.ntsc.gun_x - t.hblank) / 4 = 0 := by omega
      rw [hpix, hm, hc, if_pos ⟨hl, by decide⟩]
    · rintro ⟨h4, h7⟩
      have hc : (s.ntsc.gun_x - t.hblank) / 4 = 1 := by omega
      rw [hpix, hm, hc, if_neg (fun h => absurd h.2 (by decide))]

/-- C11 on the chip with only bit 0 of the mask set: visible position 2 gets
the playfield colour 0x1E and visible position 5 the background colour 0x84. -/
theorem process_tia_cycle_visible_pixel_witness :
    ((playfield_chip 2).vblank_mode = false
      ∧ ntsc_timing.hblank ≤ (playfield_chip 2).ntsc.gun_x
      ∧ (playfield_chip 2).ntsc.gun_x - ntsc_timing.hblank < 160
      ∧ (TIA.process_tia_cycle ntsc_timing (playfield_chip 2)).ntsc.pixels = [some 0x1E])
    ∧ (TIA.process_tia_cycle ntsc_timing (playfield_chip 5)).ntsc.pixels = [some 0x84] :=
  ⟨⟨by decide, by decide, by decide,
      ((process_tia_cycle_visible_pixel ntsc_timing (playfield_chip 2)
        (by decide) (by decide) (by decide)).2.2 rfl).1 (by decide)⟩,
   ((process_tia_cycle_visible_pixel ntsc_timing (playfield_chip 5)
      (by decide) (by decide) (by decide)).2.2 rfl).2 ⟨by decide, by decide⟩⟩

/-! ## Bits of the playfield mask -/

set_option maxRecDepth 100000

theorem reverse_byte_involutive_lt : ∀ b, b < 256 → reverse_byte (reverse_byte b) = b := by
  decide

theorem reverse_byte_testBit_lt :
    ∀ b, b < 256 → ∀ k, k < 8 → (reverse_byte b).testBit (7 - k) = b.testBit k := by
  decide

theorem reverse_byte_lt_of_lt : ∀ b, b < 256 → reverse_byte b < 256 := by
  decide

/-- Only the low eight bits of the argument reach `reverse_byte`. -/
theorem reverse_byte_mod (x : Nat) : reverse_byte x = reverse_byte (x % 256) := by
  simp only [reverse_byte, u8]
  norm_num

theorem reverse_byte_lt (x : Nat) : reverse_byte x < 256 := by
  rw [reverse_byte_mod]
  exact reverse_byte_lt_of_lt _ (Nat.mod_lt _ (by decide))

/-- Bit `k` of the reversed byte is bit `7 - k` of the argument. -/
theorem testBit_reverse_byte (x k : Nat) :
    (reverse_byte x).testBit k = (decide (k < 8) && x.testBit (7 - k)) := by
  by_cases hk : k < 8
  · have h := reverse_byte_testBit_lt (x % 256) (Nat.mod_lt _ (by decide)) (7 - k) (by omega)
    have e : 7 - (7 - k) = k := by omega
    rw [e, ← reverse_byte_mod] at h
    rw [h]
    have e2 : (256 : Nat) = 2 ^ 8 := by norm_num
    rw [e2, Nat.testBit_mod_two_pow]
    simp [hk]
    intro _
    omega
  · have hlt : reverse_byte x < 2 ^ k :=
      Nat.lt_of_lt_of_le (reverse_byte_lt x)
        (Nat.le_trans (by decide : 256 ≤ 2 ^ 8) (Nat.pow_le_pow_right (by decide) (by omega)))
    rw [Nat.testBit_lt_two_pow hlt]
    simp [hk]

theorem testBit_0xFFFFF (i : Nat) : (0xFFFFF : Nat).testBit i = decide (i < 20) :=
  Nat.testBit_two_pow_sub_one 20 i

theorem testBit_0xFF (i : Nat) : (0xFF : Nat).testBit i = decide (i < 8) :=
  Nat.testBit_two_pow_sub_one 8 i

theorem testBit_0x0F (i : Nat) : (0x0F : Nat).testBit i = decide (i < 4) :=
  Nat.testBit_two_pow_sub_one 4 i

theorem testBit_u64 (x i : Nat) : (u64 x).testBit i = (decide (i < 64) && x.testBit i) := by
  unfold u64
  exact Nat.testBit_mod_two_pow x 64 i

/-- A byte has no bit above bit 7. -/
theorem testBit_byte_high (v i : Nat) (hv : v < 256) (hi : 8 ≤ i) : v.testBit i = false :=
  Nat.testBit_lt_two_pow
    (Nat.lt_of_lt_of_le hv
      (Nat.le_trans (by decide : 256 ≤ 2 ^ 8) (Nat.pow_le_pow_right (by decide) hi)))

/-- Two numbers with the same bits 0 to 19 have the same low 20 bits. -/
theorem low20_congr (x y : Nat) (h : ∀ i, i < 20 → x.testBit i = y.testBit i) :
    x &&& 0xFFFFF = y &&& 0xFFFFF := by
  apply Nat.eq_of_testBit_eq
  intro i
  rw [Nat.testBit_and, Nat.testBit_and, testBit_0xFFFFF]
  by_cases hi : i < 20
  · rw [h i hi]
  · simp [hi]

/-- Bits of the mask after the recomputation in repeat mode. -/
theorem mirror_off_testBit (s : TIA) (h : s.playfield_mirrored = false) (i : Nat) :
    (TIA.handle_playfield_mirror s).playfield_mask.testBit i
      = ((decide (i < 20) && s.playfield_mask.testBit i)
          || (decide (20 ≤ i ∧ i < 40) && s.playfield_mask.testBit (i - 20))) := by
  simp only [TIA.handle_playfield_mirror, h, if_true, Nat.testBit_or, Nat.testBit_and,
    testBit_u64, Nat.testBit_shiftLeft, testBit_0xFFFFF]
  by_cases h1 : i < 20
  · have h2 : ¬ (20 ≤ i) := by omega
    simp [h1, h2]
  · by_cases h3 : i < 40
    · have h4 : i - 20 < 20 := by omega
      have h5 : i < 64 := by omega
      have h6 : 20 ≤ i := by omega
      simp [h1, h4, h5, h6, h3]
    · have h4 : ¬ (i - 20 < 20) := by omega
      simp [h1, h4, h3]

/-- Bits of the mask after the recomputation in mirrored mode. -/
theorem mirror_on_testBit (s : TIA) (h : s.playfield_mirrored = true) (i : Nat) :
    (TIA.handle_playfield_mirror s).playfield_mask.testBit i
      = ((decide (i < 20) && s.playfield_mask.testBit i)
          || (decide (20 ≤ i ∧ i < 40) && s.playfield_mask.testBit (39 - i))) := by
  simp only [TIA.handle_playfield_mirror, h, Bool.true_eq_false, if_false, Nat.testBit_or,
    Nat.testBit_and, testBit_u64, Nat.testBit_shiftLeft, Nat.testBit_shiftRight,
    testBit_reverse_byte, testBit_0xFFFFF, testBit_0xFF, testBit_0x0F]
  by_cases h40 : i < 40
  · interval_cases i <;> simp
  · have a1 : ¬ (i < 20) := by omega
    have a2 : ¬ (i - 20 < 8) := by omega
    have a3 : ¬ (i - 28 < 8) := by omega
    have a4 : ¬ (4 + (i - 36) < 8) := by omega
    simp [a1, a2, a3, a4, h40]

/-- The recomputation touches the mask only. -/
theorem handle_playfield_mirror_eq (s : TIA) :
    TIA.handle_playfield_mirror s
      = { s with playfield_mask := (TIA.handle_playfield_mirror s).playfield_mask } := by
  unfold TIA.handle_playfield_mirror
  split <;> rfl

theorem handle_playfield_mirror_mirrored (s : TIA) :
    (TIA.handle_playfield_mirror s).playfield_mirrored = s.playfield_mirrored := by
  rw [handle_playfield_mirror_eq]

/-- The recomputation keeps the bits 0 to 19. -/
theorem handle_playfield_mirror_low (s : TIA) (i : Nat) (hi : i < 20) :
    (TIA.handle_playfield_mirror s).playfield_mask.testBit i = s.playfield_mask.testBit i := by
  have h20 : ¬ (20 ≤ i ∧ i < 40) := by omega
  cases hm : s.playfield_mirrored
  · rw [mirror_off_testBit s hm]
    simp [hi, h20]
  · rw [mirror_on_testBit s hm]
    simp [hi, h20]

/-- After the recomputation the mask has no bit above bit 39. -/
theorem handle_playfield_mirror_lt (s : TIA) :
    (TIA.handle_playfield_mirror s).playfield_mask < 2 ^ 40 := by
  apply Nat.lt_pow_two_of_testBit
  intro i hi
  have h1 : ¬ (i < 20) := by omega
  have h2 : ¬ (20 ≤ i ∧ i < 40) := by omega
  cases hm : s.playfield_mirrored
  · rw [mirror_off_testBit s hm]
    simp [h1, h2]
  · rw [mirror_on_testBit s hm]
    simp [h1, h2]

/-- The recomputed mask is a function of the mode and of the bits 0 to 19. -/
theorem handle_playfield_mirror_congr (s s' : TIA)
    (hm : s'.playfield_mirrored = s.playfield_mirrored)
    (hl : s'.playfield_mask &&& 0xFFFFF = s.playfield_mask &&& 0xFFFFF) :
    (TIA.handle_playfield_mirror s').playfield_mask
      = (TIA.handle_playfield_mirror s).playfield_mask := by
  unfold TIA.handle_playfield_mirror
  rw [hm, hl]
  split <;> rfl

/-- The mask `~0x0F` of `pf0`, as a 64-bit value, has exactly the bits 4 to 63. -/
theorem testBit_not_0x0F (i : Nat) :
    (0xFFFFFFFFFFFFFFF0 : Nat).testBit i = decide (4 ≤ i ∧ i < 64) := by
  have e : (0xFFFFFFFFFFFFFFF0 : Nat) = (2 ^ 60 - 1) <<< 4 := by decide
  rw [e, Nat.testBit_shiftLeft, Nat.testBit_two_pow_sub_one]
  by_cases h1 : 4 ≤ i <;> by_cases h2 : i < 64 <;> simp [h1, h2] <;> omega

/-- The mask `~0xFF0` of `pf1` has the bits 0 to 3 and 12 to 63. -/
theorem testBit_not_0xFF0 (i : Nat) :
    (0xFFFFFFFFFFFFF00F : Nat).testBit i = decide (i < 4 ∨ (12 ≤ i ∧ i < 64)) := by
  have e : (0xFFFFFFFFFFFFF00F : Nat) = ((2 ^ 52 - 1) <<< 12) ||| (2 ^ 4 - 1) := by decide
  rw [e, Nat.testBit_or, Nat.testBit_shiftLeft, Nat.testBit_two_pow_sub_one,
    Nat.testBit_two_pow_sub_one]
  by_cases h1 : i < 4 <;> by_cases h2 : 12 ≤ i <;> by_cases h3 : i < 64 <;>
    simp [h1, h2, h3] <;> omega

/-- The mask `~0xFF000` of `pf2` has the bits 0 to 11 and 20 to 63. -/
theorem testBit_not_0xFF000 (i : Nat) :
    (0xFFFFFFFFFFF00FFF : Nat).testBit i = decide (i < 12 ∨ (20 ≤ i ∧ i < 64)) := by
  have e : (0xFFFFFFFFFFF00FFF : Nat) = ((2 ^ 44 - 1) <<< 20) ||| (2 ^ 12 - 1) := by decide
  rw [e, Nat.testBit_or, Nat.testBit_shiftLeft, Nat.testBit_two_pow_sub_one,
    Nat.testBit_two_pow_sub_one]
  by_cases h1 : i < 12 <;> by_cases h2 : 20 ≤ i <;> by_cases h3 : i < 64 <;>
    simp [h1, h2, h3] <;> omega

/-- Bits 0 to 19 of the mask after a write to PF0. -/
theorem pf0_low (s : TIA) (a i : Nat) (hi : i < 20) :
    (TIA.pf0 s a).playfield_mask.testBit i
      = ((decide (4 ≤ i) && s.playfield_mask.testBit i) || a.testBit (4 + i)) := by
  unfold TIA.pf0
  rw [handle_playfield_mirror_low _ i hi]
  simp only [Nat.testBit_or, Nat.testBit_and, Nat.testBit_shiftRight, testBit_not_0x0F]
  have h64 : i < 64 := by omega
  by_cases h4 : 4 ≤ i <;> simp [h4, h64]

/-- Bits 0 to 19 of the mask after a write to PF1. -/
theorem pf1_low (s : TIA) (b i : Nat) (hi : i < 20) :
    (TIA.pf1 s b).playfield_mask.testBit i
      = ((decide (i < 4 ∨ 12 ≤ i) && s.playfield_mask.testBit i)
          || (decide (4 ≤ i) && b.testBit (i - 4))) := by
  unfold TIA.pf1
  rw [handle_playfield_mirror_low _ i hi]
  simp only [Nat.testBit_or, Nat.testBit_and, Nat.testBit_shiftLeft, testBit_u64,
    testBit_not_0xFF0]
  have h64 : i < 64 := by omega
  by_cases h4 : i < 4 <;> by_cases h12 : 12 ≤ i <;> simp [h4, h12, h64]

/-- Bits 0 to 19 of the mask after a write to PF2. -/
theorem pf2_low (s : TIA) (c i : Nat) (hi : i < 20) :
    (TIA.pf2 s c).playfield_mask.testBit i
      = ((decide (i < 12) && s.playfield_mask.testBit i)
          || (decide (12 ≤ i) && c.testBit (i - 12))) := by
  unfold TIA.pf2
  rw [handle_playfield_mirror_low _ i hi]
  simp only [Nat.testBit_or, Nat.testBit_and, Nat.testBit_shiftLeft, testBit_u64,
    testBit_not_0xFF000]
  have h64 : i < 64 := by omega
  have h20 : ¬ (20 ≤ i) := by omega
  by_cases h12 : i < 12 <;> simp [h12, h64, h20]

/-- Bit `i` of the three register fields laid side by side. -/
theorem fields_testBit (a b c i : Nat) (ha : a < 256) (hb : b < 256) (hc : c < 256) :
    ((a >>> 4) ||| (b <<< 4) ||| (c <<< 12)).testBit i
      = if i < 4 then a.testBit (4 + i)
        else if i < 12 then b.testBit (i - 4)
        else if i < 20 then c.testBit (i - 12)
        else false := by
  simp only [Nat.testBit_or, Nat.testBit_shiftRight, Nat.testBit_shiftLeft]
  by_cases h4 : i < 4
  · have n4 : ¬ (4 ≤ i) := by omega
    have n12 : ¬ (12 ≤ i) := by omega
    simp [h4, n4, n12]
  · have ha' : a.testBit (4 + i) = false := testBit_byte_high a _ ha (by omega)
    by_cases h12 : i < 12
    · have n12 : ¬ (12 ≤ i) := by omega
      have g4 : 4 ≤ i := by omega
      simp [h4, h12, n12, g4, ha']
    · have hb' : b.testBit (i - 4) = false := testBit_byte_high b _ hb (by omega)
      by_cases h20 : i < 20
      · have g12 : 12 ≤ i := by omega
        simp [h4, h12, h20, g12, ha', hb']
      · have hc' : c.testBit (i - 12) = false := testBit_byte_high c _ hc (by omega)
        simp [h4, h12, h20, ha', hb', hc']

/-- A mask whose bits 0 to 19 are the three register fields. -/
theorem low20_of_fields (m a b c : Nat) (ha : a < 256) (hb : b < 256) (hc : c < 256)
    (h : ∀ i, i < 20 → m.testBit i
        = if i < 4 then a.testBit (4 + i)
          else if i < 12 then b.testBit (i - 4)
          else c.testBit (i - 12)) :
    m &&& 0xFFFFF = (a >>> 4) ||| (b <<< 4) ||| (c <<< 12) := by
  apply Nat.eq_of_testBit_eq
  intro i
  rw [Nat.testBit_and, testBit_0xFFFFF, fields_testBit a b c i ha hb hc]
  by_cases h20 : i < 20
  · rw [h i h20]
    simp [h20]
  · have n4 : ¬ (i < 4) := by omega
    have n12 : ¬ (i < 12) := by omega
    simp [h20, n4, n12]

theorem pf0_sets (s : TIA) (a i : Nat) (hi : i < 4) :
    (TIA.pf0 s a).playfield_mask.testBit i = a.testBit (4 + i) := by
  have n4 : ¬ (4 ≤ i) := by omega
  rw [pf0_low s a i (by omega)]
  simp [n4]

theorem pf0_keeps (s : TIA) (a i : Nat) (ha : a < 256) (h4 : 4 ≤ i) (hi : i < 20) :
    (TIA.pf0 s a).playfield_mask.testBit i = s.playfield_mask.testBit i := by
  rw [pf0_low s a i hi, testBit_byte_high a _ ha (by omega)]
  simp [h4]

theorem pf1_sets (s : TIA) (b i : Nat) (h4 : 4 ≤ i) (hi : i < 12) :
    (TIA.pf1 s b).playfield_mask.testBit i = b.testBit (i - 4) := by
  have n : ¬ (i < 4 ∨ 12 ≤ i) := by omega
  rw [pf1_low s b i (by omega)]
  simp [n, h4]

theorem pf1_keeps (s : TIA) (b i : Nat) (hb : b < 256) (h : i < 4 ∨ 12 ≤ i) (hi : i < 20) :
    (TIA.pf1 s b).playfield_mask.testBit i = s.playfield_mask.testBit i := by
  rw [pf1_low s b i hi]
  rcases h with h | h
  · have n4 : ¬ (4 ≤ i) := by omega
    simp [h, n4]
  · rw [testBit_byte_high b _ hb (by omega)]
    simp [h]

theorem pf2_sets (s : TIA) (c i : Nat) (h12 : 12 ≤ i) (hi : i < 20) :
    (TIA.pf2 s c).playfield_mask.testBit i = c.testBit (i - 12) := by
  have n : ¬ (i < 12) := by omega
  rw [pf2_low s c i hi]
  simp [n, h12]

theorem pf2_keeps (s : TIA) (c i : Nat) (hi : i < 12) :
    (TIA.pf2 s c).playfield_mask.testBit i = s.playfield_mask.testBit i := by
  have n : ¬ (12 ≤ i) := by omega
  rw [pf2_low s c i (by omega)]
  simp [n, hi]

/-- A mask whose three fields are the three register values. -/
theorem low20_of_three (m a b c : Nat) (ha : a < 256) (hb : b < 256) (hc : c < 256)
    (h0 : ∀ i, i < 4 → m.testBit i = a.testBit (4 + i))
    (h1 : ∀ i, 4 ≤ i → i < 12 → m.testBit i = b.testBit (i - 4))
    (h2 : ∀ i, 12 ≤ i → i < 20 → m.testBit i = c.testBit (i - 12)) :
    m &&& 0xFFFFF = (a >>> 4) ||| (b <<< 4) ||| (c <<< 12) := by
  apply low20_of_fields m a b c ha hb hc
  intro i hi
  by_cases h4 : i < 4
  · rw [if_pos h4]
    exact h0 i h4
  · rw [if_neg h4]
    by_cases h12 : i < 12
    · rw [if_pos h12]
      exact h1 i (by omega) h12
    · rw [if_neg h12]
      exact h2 i (by omega) hi

/-- The mode bit stored by `ctrlpf` is bit 0 of the written value. -/
theorem ctrlpf_mirrored (s : TIA) (v : Nat) :
    (TIA.ctrlpf s v).playfield_mirrored = v.testBit 0 := by
  unfold TIA.ctrlpf
  rw [handle_playfield_mirror_mirrored, Nat.testBit_zero, Nat.and_one_is_mod]
  exact decide_eq_decide.2 (by omega)

/-- After the recomputation the upper half is the copy or the mirror image of
the lower half, as the mode says, and nothing is set above bit 39. -/
theorem handle_playfield_mirror_consistent (x : TIA) :
    (TIA.handle_playfield_mirror x).playfield_mask < 2 ^ 40
    ∧ ((TIA.handle_playfield_mirror x).playfield_mirrored = false → ∀ i, i < 20 →
        (TIA.handle_playfield_mirror x).playfield_mask.testBit (20 + i)
          = (TIA.handle_playfield_mirror x).playfield_mask.testBit i)
    ∧ ((TIA.handle_playfield_mirror x).playfield_mirrored = true → ∀ i, i < 20 →
        (TIA.handle_playfield_mirror x).playfield_mask.testBit (39 - i)
          = (TIA.handle_playfield_mirror x).playfield_mask.testBit i) := by
  refine ⟨handle_playfield_mirror_lt x, ?_, ?_⟩
  · intro hm i hi
    rw [handle_playfield_mirror_mirrored] at hm
    rw [handle_playfield_mirror_low x i hi, mirror_off_testBit x hm]
    have h1 : ¬ (20 + i < 20) := by omega
    have h2 : 20 ≤ 20 + i ∧ 20 + i < 40 := by omega
    simp [h1, h2]
  · intro hm i hi
    rw [handle_playfield_mirror_mirrored] at hm
    rw [handle_playfield_mirror_low x i hi, mirror_on_testBit x hm]
    have h1 : ¬ (39 - i < 20) := by omega
    have h2 : 20 ≤ 39 - i ∧ 39 - i < 40 := by omega
    have h3 : 39 - (39 - i) = i := by omega
    simp [h1, h2, h3]

/-- Two chips that differ at most in the bits 20 and up of the mask are the same
chip after the recomputation. -/
theorem handle_playfield_mirror_forgets (x y : TIA)
    (h : { x with playfield_mask := 0 } = { y with playfield_mask := 0 })
    (hl : x.playfield_mask &&& 0xFFFFF = y.playfield_mask &&& 0xFFFFF) :
    TIA.handle_playfield_mirror x = TIA.handle_playfield_mirror y := by
  have hm : x.playfield_mirrored = y.playfield_mirrored := by
    have e := congrArg (fun z : TIA => z.playfield_mirrored) h
    exact e
  have hmask := handle_playfield_mirror_congr y x hm hl
  rw [handle_playfield_mirror_eq x, handle_playfield_mirror_eq y, hmask]
  have e := congrArg
    (fun z : TIA => { z with playfield_mask := (TIA.handle_playfield_mirror y).playfield_mask }) h
  exact e

/-- A second write to CTRLPF starts from the bits 0 to 19 alone. -/
theorem ctrlpf_ctrlpf (s : TIA) (v w : Nat) :
    TIA.ctrlpf (TIA.ctrlpf s v) w = TIA.ctrlpf s w := by
  unfold TIA.ctrlpf
  apply handle_playfield_mirror_forgets
  · rw [handle_playfield_mirror_eq]
  · exact low20_congr _ _ (fun i hi => handle_playfield_mirror_low _ i hi)

/-! ## Claims on the playfield registers -/

/-- C12: for all bytes `a`, `b`, `c` and every prior mask, a write of `a` to
PF0 sets the bits 0 to 3 to the high nibble `a >> 4` and keeps the bits 4 to
19, a write of `b` to PF1 sets the bits 4 to 11 to `b` and keeps the bits 0 to
3 and 12 to 19, and a write of `c` to PF2 sets the bits 12 to 19 to `c` and
keeps the bits 0 to 11; after the three writes in any of the six orders the low
20 bits are `(a >> 4) | (b << 4) | (c << 12)`, and the low nibble of `a` has no
effect. -/
theorem pf_writes_set_fields (s : TIA) (a b c : Nat)
    (ha : a < 256) (hb : b < 256) (hc : c < 256) :
    ((∀ i, i < 4 → (TIA.pf0 s a).playfield_mask.testBit i = (a >>> 4).testBit i)
      ∧ (∀ i, 4 ≤ i → i < 20 →
          (TIA.pf0 s a).playfield_mask.testBit i = s.playfield_mask.testBit i))
    ∧ ((∀ i, 4 ≤ i → i < 12 → (TIA.pf1 s b).playfield_mask.testBit i = b.testBit (i - 4))
      ∧ (∀ i, i < 4 ∨ 12 ≤ i → i < 20 →
          (TIA.pf1 s b).playfield_mask.testBit i = s.playfield_mask.testBit i))
    ∧ ((∀ i, 12 ≤ i → i < 20 → (TIA.pf2 s c).playfield_mask.testBit i = c.testBit (i - 12))
      ∧ (∀ i, i < 12 →
          (TIA.pf2 s c).playfield_mask.testBit i = s.playfield_mask.testBit i))
    ∧ (TIA.pf2 (TIA.pf1 (TIA.pf0 s a) b) c).playfield_mask &&& 0xFFFFF
        = (a >>> 4) ||| (b <<< 4) ||| (c <<< 12)
    ∧ (TIA.pf1 (TIA.pf2 (TIA.pf0 s a) c) b).playfield_mask &&& 0xFFFFF
        = (a >>> 4) ||| (b <<< 4) ||| (c <<< 12)
    ∧ (TIA.pf2 (TIA.pf0 (TIA.pf1 s b) a) c).playfield_mask &&& 0xFFFFF
        = (a >>> 4) ||| (b <<< 4) ||| (c <<< 12)
    ∧ (TIA.pf0 (TIA.pf2 (TIA.pf1 s b) c) a).playfield_mask &&& 0xFFFFF
        = (a >>> 4) ||| (b <<< 4) ||| (c <<< 12)
    ∧ (TIA.pf1 (TIA.pf0 (TIA.pf2 s c) a) b).playfield_mask &&& 0xFFFFF
        = (a >>> 4) ||| (b <<< 4) ||| (c <<< 12)
    ∧ (TIA.pf0 (TIA.pf1 (TIA.pf2 s c) b) a).playfield_mask &&& 0xFFFFF
        = (a >>> 4) ||| (b <<< 4) ||| (c <<< 12)
    ∧ TIA.pf0 s a = TIA.pf0 s (a &&& 0xF0) := by
  refine ⟨⟨?_, fun i h4 hi => pf0_keeps s a i ha h4 hi⟩,
    ⟨fun i h4 hi => pf1_sets s b i h4 hi, fun i h hi => pf1_keeps s b i hb h hi⟩,
    ⟨fun i h12 hi => pf2_sets s c i h12 hi, fun i hi => pf2_keeps s c i hi⟩,
    ?_, ?_, ?_, ?_, ?_, ?_, ?_⟩
  · intro i hi
    rw [pf0_sets s a i hi, Nat.testBit_shiftRight]
  · apply low20_of_three _ a b c ha hb hc
    · intro i hi
      rw [pf2_keeps _ c i (by omega), pf1_keeps _ b i hb (Or.inl hi) (by omega), pf0_sets _ a i hi]
    · intro i h4 hi
      rw [pf2_keeps _ c i hi, pf1_sets _ b i h4 hi]
    · intro i h12 hi
      rw [pf2_sets _ c i h12 hi]
  · apply low20_of_three _ a b c ha hb hc
    · intro i hi
      rw [pf1_keeps _ b i hb (Or.inl hi) (by omega), pf2_keeps _ c i (by omega), pf0_sets _ a i hi]
    · intro i h4 hi
      rw [pf1_sets _ b i h4 hi]
    · intro i h12 hi
      rw [pf1_keeps _ b i hb (Or.inr h12) hi, pf2_sets _ c i h12 hi]
  · apply low20_of_three _ a b c ha hb hc
    · intro i hi
      rw [pf2_keeps _ c i (by omega), pf0_sets _ a i hi]
    · intro i h4 hi
      rw [pf2_keeps _ c i hi, pf0_keeps _ a i ha h4 (by omega), pf1_sets _ b i h4 hi]
    · intro i h12 hi
      rw [pf2_sets _ c i h12 hi]
  · apply low20_of_three _ a b c ha hb hc
    · intro i hi
      rw [pf0_sets _ a i hi]
    · intro i h4 hi
      rw [pf0_keeps _ a i ha h4 (by omega), pf2_keeps _ c i hi, pf1_sets _ b i h4 hi]
    · intro i h12 hi
      rw [pf0_keeps _ a i ha (by omega) hi, pf2_sets _ c i h12 hi]
  · apply low20_of_three _ a b c ha hb hc
    · intro i hi
      rw [pf1_keeps _ b i hb (Or.inl hi) (by omega), pf0_sets _ a i hi]
    · intro i h4 hi
      rw [pf1_sets _ b i h4 hi]
    · intro i h12 hi
      rw [pf1_keeps _ b i hb (Or.inr h12) hi, pf0_keeps _ a i ha (by omega) hi,
        pf2_sets _ c i h12 hi]
  · apply low20_of_three _ a b c ha hb hc
    · intro i hi
      rw [pf0_sets _ a i hi]
    · intro i h4 hi
      rw [pf0_keeps _ a i ha h4 (by omega), pf1_sets _ b i h4 hi]
    · intro i h12 hi
      rw [pf0_keeps _ a i ha (by omega) hi, pf1_keeps _ b i hb (Or.inr h12) hi,
        pf2_sets _ c i h12 hi]
  · have e : (a &&& 0xF0) >>> 4 = a >>> 4 := by
      apply Nat.eq_of_testBit_eq
      intro i
      have e2 : (0xF0 : Nat) = (2 ^ 4 - 1) <<< 4 := by decide
      rw [Nat.testBit_shiftRight, Nat.testBit_shiftRight, Nat.testBit_and, e2,
        Nat.testBit_shiftLeft, Nat.testBit_two_pow_sub_one]
      by_cases hi : i < 4
      · have h1 : 4 + i - 4 < 4 := by omega
        simp [h1, hi]
      · rw [testBit_byte_high a _ ha (by omega)]
        simp
    unfold TIA.pf0
    rw [e]

/-- C12 on the stale mirrored chip with the bytes 0xA7, 0x5C and 0x3E: the
three fields read 0xA, 0x5C and 0x3E whatever the mask held before. -/
theorem pf_writes_set_fields_witness :
    ((0xA7 : Nat) < 256 ∧ (0x5C : Nat) < 256 ∧ (0x3E : Nat) < 256)
    ∧ (TIA.pf2 (TIA.pf1 (TIA.pf0 stale_chip 0xA7) 0x5C) 0x3E).playfield_mask &&& 0xFFFFF
        = (0xA7 >>> 4) ||| (0x5C <<< 4) ||| (0x3E <<< 12)
    ∧ (0xA7 >>> 4) ||| (0x5C <<< 4) ||| (0x3E <<< 12) = 0x3E5CA :=
  ⟨⟨by decide, by decide, by decide⟩,
   (pf_writes_set_fields stale_chip 0xA7 0x5C 0x3E (by decide) (by decide)
      (by decide)).2.2.2.1,
   by decide⟩

/-- C13: in mirrored mode the recomputation keeps the bits 0 to 19 and makes
the right half the mirror image of the left: for every `i` in 0..19 bit
`39 - i` of the result is bit `i` of the input; the bits 20 to 27 are the
bit-reversed PF2 field (bits 12 to 19), the bits 28 to 35 the bit-reversed PF1
field (bits 4 to 11) and the bits 36 to 39 the bit-reversed PF0 field (bits 0
to 3); nothing is set above bit 39 and no other field of the chip changes. -/
theorem handle_playfield_mirror_mirrors (s : TIA) (h : s.playfield_mirrored = true) :
    (∀ i, i < 20 →
        (TIA.handle_playfield_mirror s).playfield_mask.testBit i = s.playfield_mask.testBit i)
    ∧ (∀ i, i < 20 →
        (TIA.handle_playfield_mirror s).playfield_mask.testBit (39 - i)
          = s.playfield_mask.testBit i)
    ∧ ((TIA.handle_playfield_mirror s).playfield_mask >>> 20) &&& 0xFF
        = reverse_byte ((s.playfield_mask >>> 12) &&& 0xFF)
    ∧ ((TIA.handle_playfield_mirror s).playfield_mask >>> 28) &&& 0xFF
        = reverse_byte ((s.playfield_mask >>> 4) &&& 0xFF)
    ∧ ((TIA.handle_playfield_mirror s).playfield_mask >>> 36) &&& 0x0F
        = reverse_byte (s.playfield_mask &&& 0x0F) >>> 4
    ∧ (TIA.handle_playfield_mirror s).playfield_mask < 2 ^ 40
    ∧ TIA.handle_playfield_mirror s
        = { s with playfield_mask := (TIA.handle_playfield_mirror s).playfield_mask } := by
  refine ⟨fun i hi => handle_playfield_mirror_low s i hi, ?_, ?_, ?_, ?_,
    handle_playfield_mirror_lt s, handle_playfield_mirror_eq s⟩
  · intro i hi
    rw [mirror_on_testBit s h]
    have h1 : ¬ (39 - i < 20) := by omega
    have h2 : 20 ≤ 39 - i ∧ 39 - i < 40 := by omega
    have h3 : 39 - (39 - i) = i := by omega
    simp [h1, h2, h3]
  · apply Nat.eq_of_testBit_eq
    intro j
    simp only [Nat.testBit_and, Nat.testBit_shiftRight, testBit_reverse_byte, testBit_0xFF,
      mirror_on_testBit s h]
    by_cases hj : j < 8
    · interval_cases j <;> simp
    · simp [hj]
  · apply Nat.eq_of_testBit_eq
    intro j
    simp only [Nat.testBit_and, Nat.testBit_shiftRight, testBit_reverse_byte, testBit_0xFF,
      mirror_on_testBit s h]
    by_cases hj : j < 8
    · interval_cases j <;> simp
    · simp [hj]
  · apply Nat.eq_of_testBit_eq
    intro j
    simp only [Nat.testBit_and, Nat.testBit_shiftRight, testBit_reverse_byte, testBit_0x0F,
      mirror_on_testBit s h]
    by_cases hj : j < 4
    · interval_cases j <;> simp
    · have hj2 : ¬ (4 + j < 8) := by omega
      simp [hj, hj2]

/-- C13 on the mirrored chip whose mask has bit 0 set: bit 39 is set after the
recomputation. -/
theorem handle_playfield_mirror_mirrors_witness :
    stale_chip.playfield_mirrored = true
    ∧ (TIA.handle_playfield_mirror stale_chip).playfield_mask.testBit (39 - 0)
        = stale_chip.playfield_mask.testBit 0 :=
  ⟨rfl, (handle_playfield_mirror_mirrors stale_chip rfl).2.1 0 (by decide)⟩

/-- C14: in repeat mode the recomputation keeps the bits 0 to 19 and copies
them into the bits 20 to 39: for every `i` in 0..19 bit `20 + i` of the result
is bit `i` of the input, and the result is `low20 | (low20 << 20)`. -/
theorem handle_playfield_mirror_duplicates (s : TIA) (h : s.playfield_mirrored = false) :
    (∀ i, i < 20 →
        (TIA.handle_playfield_mirror s).playfield_mask.testBit i = s.playfield_mask.testBit i)
    ∧ (∀ i, i < 20 →
        (TIA.handle_playfield_mirror s).playfield_mask.testBit (20 + i)
          = s.playfield_mask.testBit i)
    ∧ (TIA.handle_playfield_mirror s).playfield_mask
        = (s.playfield_mask &&& 0xFFFFF) ||| ((s.playfield_mask &&& 0xFFFFF) <<< 20)
    ∧ TIA.handle_playfield_mirror s
        = { s with playfield_mask := (TIA.handle_playfield_mirror s).playfield_mask } := by
  refine ⟨fun i hi => handle_playfield_mirror_low s i hi, ?_, ?_, handle_playfield_mirror_eq s⟩
  · intro i hi
    rw [mirror_off_testBit s h]
    have h1 : ¬ (20 + i < 20) := by omega
    have h2 : 20 ≤ 20 + i ∧ 20 + i < 40 := by omega
    simp [h1, h2]
  · apply Nat.eq_of_testBit_eq
    intro i
    rw [mirror_off_testBit s h]
    simp only [Nat.testBit_or, Nat.testBit_and, Nat.testBit_shiftLeft, testBit_0xFFFFF]
    by_cases h1 : i < 20
    · have h2 : ¬ (20 ≤ i) := by omega
      simp [h1, h2]
    · by_cases h3 : i < 40
      · have h4 : i - 20 < 20 := by omega
        have h6 : 20 ≤ i := by omega
        simp [h1, h4, h6, h3]
      · have h4 : ¬ (i - 20 < 20) := by omega
        simp [h1, h4, h3]

/-- C14 on the constructed chip with mask 1: bit 20 is set after the
recomputation. -/
theorem handle_playfield_mirror_duplicates_witness :
    (playfield_chip 0).playfield_mirrored = false
    ∧ (TIA.handle_playfield_mirror (playfield_chip 0)).playfield_mask.testBit (20 + 0)
        = (playfield_chip 0).playfield_mask.testBit 0 :=
  ⟨rfl, (handle_playfield_mirror_duplicates (playfield_chip 0) rfl).2.1 0 (by decide)⟩

/-- C15: for every mask and either mode, running the mirror recomputation a
second time changes nothing: the chip after two runs is the chip after one, so
in particular the bits 20 to 39 are the same. -/
theorem handle_playfield_mirror_idempotent (s : TIA) :
    TIA.handle_playfield_mirror (TIA.handle_playfield_mirror s) = TIA.handle_playfield_mirror s
    ∧ (TIA.handle_playfield_mirror (TIA.handle_playfield_mirror s)).playfield_mask
        = (TIA.handle_playfield_mirror s).playfield_mask
    ∧ (∀ i, 20 ≤ i → i ≤ 39 →
        (TIA.handle_playfield_mirror (TIA.handle_playfield_mirror s)).playfield_mask.testBit i
          = (TIA.handle_playfield_mirror s).playfield_mask.testBit i) := by
  have hmask : (TIA.handle_playfield_mirror (TIA.handle_playfield_mirror s)).playfield_mask
      = (TIA.handle_playfield_mirror s).playfield_mask :=
    handle_playfield_mirror_congr s (TIA.handle_playfield_mirror s)
      (handle_playfield_mirror_mirrored s)
      (low20_congr _ _ (fun i hi => handle_playfield_mirror_low s i hi))
  refine ⟨?_, hmask, ?_⟩
  · rw [handle_playfield_mirror_eq (TIA.handle_playfield_mirror s), hmask]
  · intro i _ _
    rw [hmask]

/-- C15 on the chip with stale upper bits: a second run changes nothing, bit
25 included. -/
theorem handle_playfield_mirror_idempotent_witness :
    TIA.handle_playfield_mirror (TIA.handle_playfield_mirror stale_chip)
        = TIA.handle_playfield_mirror stale_chip
    ∧ (TIA.handle_playfield_mirror (TIA.handle_playfield_mirror stale_chip)).playfield_mask.testBit
          25
        = (TIA.handle_playfield_mirror stale_chip).playfield_mask.testBit 25 :=
  ⟨(handle_playfield_mirror_idempotent stale_chip).1,
   (handle_playfield_mirror_idempotent stale_chip).2.2 25 (by decide) (by decide)⟩

/-- C16: for every byte `b`, reversing twice gives `b` back, and
`reverse_byte` moves bit `k` of `b` to bit `7 - k` for every `k` in 0..7; the
result is a byte again. -/
theorem reverse_byte_involutive (b : Nat) (hb : b < 256) :
    reverse_byte (reverse_byte b) = b
    ∧ (∀ k, k < 8 → (reverse_byte b).testBit (7 - k) = b.testBit k)
    ∧ reverse_byte b < 256 :=
  ⟨reverse_byte_involutive_lt b hb, reverse_byte_testBit_lt b hb, reverse_byte_lt_of_lt b hb⟩

/-- C16 at the byte 0x1D, whose reversal is 0xB8. -/
theorem reverse_byte_involutive_witness :
    (0x1D : Nat) < 256 ∧ reverse_byte 0x1D = 0xB8 ∧ reverse_byte (reverse_byte 0x1D) = 0x1D :=
  ⟨by decide, by decide, (reverse_byte_involutive 0x1D (by decide)).1⟩

/-- C17: after a write to CTRLPF, PF0, PF1 or PF2, from any mask whatsoever,
`playfield_mirrored` is bit 0 of the last CTRLPF value (CTRLPF stores it, the
PF registers keep it), the mask is below `2^40`, and its bits 20 to 39 are the
copy (mode off) or the mirror image (mode on) of its bits 0 to 19. The upper
bits are rebuilt from the lower ones alone: a second CTRLPF write gives the
chip that the write alone would give, so switching from mirrored to repeat and
back leaves nothing behind; on the chip with stale bits 20 to 39 and 63 and bit
0 set, `CTRLPF := 0` gives the mask 0x100001 and `CTRLPF := 1` after it
0x8000000001. -/
theorem playfield_write_rebuilds_upper_half (s : TIA) (v w : Nat) :
    (TIA.ctrlpf s v).playfield_mirrored = v.testBit 0
    ∧ (TIA.pf0 s v).playfield_mirrored = s.playfield_mirrored
    ∧ (TIA.pf1 s v).playfield_mirrored = s.playfield_mirrored
    ∧ (TIA.pf2 s v).playfield_mirrored = s.playfield_mirrored
    ∧ (TIA.pf0 (TIA.ctrlpf s v) w).playfield_mirrored = v.testBit 0
    ∧ (TIA.pf1 (TIA.ctrlpf s v) w).playfield_mirrored = v.testBit 0
    ∧ (TIA.pf2 (TIA.ctrlpf s v) w).playfield_mirrored = v.testBit 0
    ∧ (∀ r, (r = TIA.ctrlpf s v ∨ r = TIA.pf0 s v ∨ r = TIA.pf1 s v ∨ r = TIA.pf2 s v) →
        r.playfield_mask < 2 ^ 40
        ∧ (r.playfield_mirrored = false → ∀ i, i < 20 →
            r.playfield_mask.testBit (20 + i) = r.playfield_mask.testBit i)
        ∧ (r.playfield_mirrored = true → ∀ i, i < 20 →
            r.playfield_mask.testBit (39 - i) = r.playfield_mask.testBit i))
    ∧ TIA.ctrlpf (TIA.ctrlpf s v) w = TIA.ctrlpf s w
    ∧ TIA.ctrlpf (TIA.ctrlpf (TIA.ctrlpf s 1) 0) 1 = TIA.ctrlpf s 1
    ∧ (TIA.ctrlpf stale_chip 0).playfield_mask = 0x100001
    ∧ (TIA.ctrlpf (TIA.ctrlpf stale_chip 0) 1).playfield_mask = 0x8000000001 := by
  have h0 : ∀ (x : TIA) (u : Nat), (TIA.pf0 x u).playfield_mirrored = x.playfield_mirrored := by
    intro x u
    unfold TIA.pf0
    rw [handle_playfield_mirror_mirrored]
  have h1 : ∀ (x : TIA) (u : Nat), (TIA.pf1 x u).playfield_mirrored = x.playfield_mirrored := by
    intro x u
    unfold TIA.pf1
    rw [handle_playfield_mirror_mirrored]
  have h2 : ∀ (x : TIA) (u : Nat), (TIA.pf2 x u).playfield_mirrored = x.playfield_mirrored := by
    intro x u
    unfold TIA.pf2
    rw [handle_playfield_mirror_mirrored]
  refine ⟨ctrlpf_mirrored s v, h0 s v, h1 s v, h2 s v, ?_, ?_, ?_, ?_, ctrlpf_ctrlpf s v w, ?_,
    by decide, by decide⟩
  · rw [h0, ctrlpf_mirrored]
  · rw [h1, ctrlpf_mirrored]
  · rw [h2, ctrlpf_mirrored]
  · rintro r (hr | hr | hr | hr) <;> rw [hr]
    · exact handle_playfield_mirror_consistent _
    · exact handle_playfield_mirror_consistent _
    · exact handle_playfield_mirror_consistent _
    · exact handle_playfield_mirror_consistent _
  · rw [ctrlpf_ctrlpf, ctrlpf_ctrlpf]

/-- C17 on the stale chip after `PF1 := 0x5C`: the chip stays mirrored, and
bit 33 of the new mask is its bit 6. -/
theorem playfield_write_rebuilds_upper_half_witness :
    (TIA.pf1 stale_chip 0x5C).playfield_mirrored = true
    ∧ (TIA.pf1 stale_chip 0x5C).playfield_mask.testBit (39 - 6)
        = (TIA.pf1 stale_chip 0x5C).playfield_mask.testBit 6 :=
  ⟨by decide,
   ((playfield_write_rebuilds_upper_half stale_chip 0x5C 0).2.2.2.2.2.2.2.1
      (TIA.pf1 stale_chip 0x5C) (Or.inr (Or.inr (Or.inl rfl)))).2.2 (by decide) 6 (by decide)⟩

/-- C18 as stated fails: at beam position 10, inside horizontal blank, with
`vblank_mode` false, the chip cycle hands `background_color` (0x84) to
`write_pixel`. -/
theorem hblank_cycle_writes_background :
    hblank_chip.vblank_mode = false
    ∧ hblank_chip.ntsc.gun_x < ntsc_timing.hblank
    ∧ hblank_chip.background_color = 0x84
    ∧ (TIA.process_tia_cycle ntsc_timing hblank_chip).ntsc.pixels
        = [some hblank_chip.background_color]
    ∧ (TIA.process_tia_cycle ntsc_timing hblank_chip).ntsc.pixels ≠ hblank_chip.ntsc.pixels := by
  refine ⟨by decide, by decide, by decide, by decide, by decide⟩

/-- C18 as amended: in a chip cycle with `vblank_mode` false and the beam
inside horizontal blank (`gun_x < hblank`) the colour handed to `write_pixel`
is `background_color`, whatever the playfield mask holds. -/
theorem process_tia_cycle_hblank_pixel (t : Timing) (s : TIA)
    (hb : s.vblank_mode = false) (hx : s.ntsc.gun_x < t.hblank) :
    (TIA.process_tia_cycle t s).ntsc.pixels = some s.background_color :: s.ntsc.pixels := by
  rw [process_tia_cycle_pixels, if_pos hb, if_neg (fun h => absurd h.1 (by omega))]

/-- C18 as amended, at beam position 10 with every playfield cell set. -/
theorem process_tia_cycle_hblank_pixel_witness :
    hblank_chip.vblank_mode = false
    ∧ hblank_chip.ntsc.gun_x < ntsc_timing.hblank
    ∧ (TIA.process_tia_cycle ntsc_timing hblank_chip).ntsc.pixels
        = some hblank_chip.background_color :: hblank_chip.ntsc.pixels :=
  ⟨by decide, by decide,
   process_tia_cycle_hblank_pixel ntsc_timing hblank_chip (by decide) (by decide)⟩

/-- C19: a rejected register write changes no field of the chip: for every
byte the VSYNC handler rejects (neither 0 nor 2) and every byte the VBLANK
handler rejects (`v & 0x3C` not zero) the state after the call is the state
before, up to the printed line and the call of `panic()`; `vsync_mode` and
`vblank_mode` in particular are as before. -/
theorem rejected_write_changes_no_register (s : TIA) (v : Nat) :
    ((v ≠ 0 ∧ v ≠ 2) →
        { TIA.vsync s v with stdout := s.stdout, panics := s.panics } = s
        ∧ (TIA.vsync s v).vsync_mode = s.vsync_mode
        ∧ (TIA.vsync s v).vblank_mode = s.vblank_mode
        ∧ (TIA.vsync s v).playfield_mask = s.playfield_mask
        ∧ (TIA.vsync s v).playfield_mirrored = s.playfield_mirrored
        ∧ (TIA.vsync s v).playfield_color = s.playfield_color
        ∧ (TIA.vsync s v).background_color = s.background_color
        ∧ (TIA.vsync s v).cycle_num = s.cycle_num
        ∧ (TIA.vsync s v).tia_cycle_num = s.tia_cycle_num
        ∧ (TIA.vsync s v).dma_write_request = s.dma_write_request
        ∧ (TIA.vsync s v).dma_val = s.dma_val)
    ∧ (v &&& 0x3C ≠ 0 →
        { TIA.vblank s v with stdout := s.stdout, panics := s.panics } = s
        ∧ (TIA.vblank s v).vsync_mode = s.vsync_mode
        ∧ (TIA.vblank s v).vblank_mode = s.vblank_mode
        ∧ (TIA.vblank s v).playfield_mask = s.playfield_mask
        ∧ (TIA.vblank s v).playfield_mirrored = s.playfield_mirrored
        ∧ (TIA.vblank s v).playfield_color = s.playfield_color
        ∧ (TIA.vblank s v).background_color = s.background_color
        ∧ (TIA.vblank s v).cycle_num = s.cycle_num
        ∧ (TIA.vblank s v).tia_cycle_num = s.tia_cycle_num
        ∧ (TIA.vblank s v).dma_write_request = s.dma_write_request
        ∧ (TIA.vblank s v).dma_val = s.dma_val) := by
  constructor
  · intro h
    have hv : TIA.vsync s v = TIA.panic (TIA.printf s (Report.invalid_vsync v)) := by
      simp only [TIA.vsync, if_pos h]
    rw [hv]
    exact ⟨rfl, rfl, rfl, rfl, rfl, rfl, rfl, rfl, rfl, rfl, rfl⟩
  · intro h
    have hv : TIA.vblank s v = TIA.panic (TIA.printf s (Report.invalid_vblank v)) := by
      simp only [TIA.vblank, if_pos h]
    rw [hv]
    exact ⟨rfl, rfl, rfl, rfl, rfl, rfl, rfl, rfl, rfl, rfl, rfl⟩

/-- C19 on the blanking chip: `VSYNC := 7` and `VBLANK := 0x04` are rejected
and leave both modes as they were. -/
theorem rejected_write_changes_no_register_witness :
    (((7 : Nat) ≠ 0 ∧ (7 : Nat) ≠ 2)
      ∧ (TIA.vsync blanked_chip 7).vsync_mode = blanked_chip.vsync_mode)
    ∧ ((0x04 &&& 0x3C ≠ 0)
      ∧ (TIA.vblank blanked_chip 0x04).vblank_mode = blanked_chip.vblank_mode) :=
  ⟨⟨by decide, ((rejected_write_changes_no_register blanked_chip 7).1 (by decide)).2.1⟩,
   ⟨by decide, ((rejected_write_changes_no_register blanked_chip 0x04).2 (by decide)).2.2.1⟩⟩

/-- C20: the constructor, run on an object whose two tables are empty, leaves
a write handler at exactly the offsets 0x00 (VSYNC), 0x01 (VBLANK), 0x02
(WSYNC), 0x08 (COLUPF), 0x09 (COLUBK), 0x0A (CTRLPF), 0x0D (PF0), 0x0E (PF1)
and 0x0F (PF2), each the handler of that register, and none at any other
offset; the read table stays empty, so a bus read at any offset prints the
invalid-read line, calls `panic()` and returns 0. -/
theorem construct_registers_nine_write_handlers (t : Timing) (s : TIA)
    (hw : ∀ a, s.dma_write_table a = none) (hr : ∀ a, s.dma_read_table a = none) :
    (TIA.construct t s).dma_write_table 0x00 = some WriteFunc.vsync
    ∧ (TIA.construct t s).dma_write_table 0x01 = some WriteFunc.vblank
    ∧ (TIA.construct t s).dma_write_table 0x02 = some WriteFunc.wsync
    ∧ (TIA.construct t s).dma_write_table 0x08 = some WriteFunc.colupf
    ∧ (TIA.construct t s).dma_write_table 0x09 = some WriteFunc.colubk
    ∧ (TIA.construct t s).dma_write_table 0x0A = some WriteFunc.ctrlpf
    ∧ (TIA.construct t s).dma_write_table 0x0D = some WriteFunc.pf0
    ∧ (TIA.construct t s).dma_write_table 0x0E = some WriteFunc.pf1
    ∧ (TIA.construct t s).dma_write_table 0x0F = some WriteFunc.pf2
    ∧ (∀ a, a ∉ [0x00, 0x01, 0x02, 0x08, 0x09, 0x0A, 0x0D, 0x0E, 0x0F] →
        (TIA.construct t s).dma_write_table a = none)
    ∧ (∀ a, (TIA.construct t s).dma_read_table a = none)
    ∧ (∀ a, (TIA.dma_read_hook (TIA.construct t s) a).1 = 0
        ∧ (TIA.dma_read_hook (TIA.construct t s) a).2.stdout
            = Report.invalid_dma_read a :: s.stdout
        ∧ (TIA.dma_read_hook (TIA.construct t s) a).2.panics = s.panics + 1) := by
  have hread : ∀ a, (TIA.construct t s).dma_read_table a = none := fun a => hr a
  refine ⟨by simp [TIA.construct, Function.update], by simp [TIA.construct, Function.update],
    by simp [TIA.construct, Function.update], by simp [TIA.construct, Function.update],
    by simp [TIA.construct, Function.update], by simp [TIA.construct, Function.update],
    by simp [TIA.construct, Function.update], by simp [TIA.construct, Function.update],
    by simp [TIA.construct, Function.update], ?_, hread, ?_⟩
  · intro a ha
    simp only [List.mem_cons, List.mem_singleton, List.not_mem_nil, or_false, not_or] at ha
    obtain ⟨a0, a1, a2, a8, a9, a10, a13, a14, a15⟩ := ha
    simp [TIA.construct, Function.update, hw, a0, a1, a2, a8, a9, a10, a13, a14, a15]
  · intro a
    have e : TIA.dma_read_hook (TIA.construct t s) a
        = (0, TIA.panic (TIA.printf (TIA.construct t s) (Report.invalid_dma_read a))) := by
      simp only [TIA.dma_read_hook, hread a]
    rw [e]
    exact ⟨rfl, rfl, rfl⟩

/-- C20 on the constructed chip: offset 0x0D holds the PF0 handler, offset 3
none, and a read at offset 0 returns 0. -/
theorem construct_registers_nine_write_handlers_witness :
    ((∀ a, blank_chip.dma_write_table a = none) ∧ (∀ a, blank_chip.dma_read_table a = none))
    ∧ fresh_chip.dma_write_table 0x0D = some WriteFunc.pf0
    ∧ fresh_chip.dma_write_table 3 = none
    ∧ (TIA.dma_read_hook fresh_chip 0).1 = 0 :=
  ⟨⟨fun _ => rfl, fun _ => rfl⟩,
   (construct_registers_nine_write_handlers ntsc_timing blank_chip (fun _ => rfl)
      (fun _ => rfl)).2.2.2.2.2.2.1,
   (construct_registers_nine_write_handlers ntsc_timing blank_chip (fun _ => rfl)
      (fun _ => rfl)).2.2.2.2.2.2.2.2.2.1 3 (by decide),
   ((construct_registers_nine_write_handlers ntsc_timing blank_chip (fun _ => rfl)
      (fun _ => rfl)).2.2.2.2.2.2.2.2.2.2.2 0).1⟩

/-! ## Calls that halt at the fatal condition -/

/-- A handler call either returns what `TIA.call` gives, with `panic()` not
called, or halts with one call of `panic()`. -/
theorem run_call_cases (t : Timing) (f : WriteFunc) (s : TIA) (v : Nat) :
    (Run.call t f s v = Outcome.returned (TIA.call t f s v)
        ∧ (TIA.call t f s v).panics = s.panics
        ∧ (TIA.call t f s v).stdout = s.stdout)
    ∨ (Run.call t f s v = Outcome.halted (TIA.call t f s v)
        ∧ (TIA.call t f s v).panics = s.panics + 1) := by
  cases f
  case vsync =>
    by_cases h : v ≠ 0 ∧ v ≠ 2
    · right
      constructor
      · simp only [Run.call, Run.vsync, TIA.call, TIA.vsync, if_pos h]
      · simp only [TIA.call, TIA.vsync, if_pos h]
        rfl
    · left
      refine ⟨?_, ?_, ?_⟩
      · simp only [Run.call, Run.vsync, TIA.call, TIA.vsync, if_neg h]
      · simp only [TIA.call, TIA.vsync, if_neg h]
      · simp only [TIA.call, TIA.vsync, if_neg h]
  case vblank =>
    by_cases h : v &&& 0x3C ≠ 0
    · right
      constructor
      · simp only [Run.call, Run.vblank, TIA.call, TIA.vblank, if_pos h]
      · simp only [TIA.call, TIA.vblank, if_pos h]
        rfl
    · left
      refine ⟨?_, ?_, ?_⟩
      · simp only [Run.call, Run.vblank, TIA.call, TIA.vblank, if_neg h]
      · simp only [TIA.call, TIA.vblank, if_neg h]
      · simp only [TIA.call, TIA.vblank, if_neg h]
  case wsync => exact Or.inl ⟨rfl, rfl, rfl⟩
  case colupf => exact Or.inl ⟨rfl, rfl, rfl⟩
  case colubk => exact Or.inl ⟨rfl, rfl, rfl⟩
  case ctrlpf =>
    left
    refine ⟨rfl, ?_, ?_⟩ <;> (simp only [TIA.call, TIA.ctrlpf]; rw [handle_playfield_mirror_eq])
  case pf0 =>
    left
    refine ⟨rfl, ?_, ?_⟩ <;> (simp only [TIA.call, TIA.pf0]; rw [handle_playfield_mirror_eq])
  case pf1 =>
    left
    refine ⟨rfl, ?_, ?_⟩ <;> (simp only [TIA.call, TIA.pf1]; rw [handle_playfield_mirror_eq])
  case pf2 =>
    left
    refine ⟨rfl, ?_, ?_⟩ <;> (simp only [TIA.call, TIA.pf2]; rw [handle_playfield_mirror_eq])

/-- A chip cycle on which no guard fires calls `panic()` not at all, keeps
`vsync_mode` and moves the beam by one `write_pixel`. -/
theorem process_tia_cycle_quiet (t : Timing) (s : TIA)
    (h1 : ¬ (0 < s.ntsc.gun_y ∧ s.ntsc.gun_y < t.vsync_lines ∧ s.vsync_mode = false))
    (h2 : ¬ (t.vsync_lines < s.ntsc.gun_y ∧ s.vsync_mode = true)) :
    (TIA.process_tia_cycle t s).panics = s.panics
    ∧ (TIA.process_tia_cycle t s).stdout = s.stdout
    ∧ (TIA.process_tia_cycle t s).vsync_mode = s.vsync_mode
    ∧ ∃ c, (TIA.process_tia_cycle t s).ntsc = s.ntsc.write_pixel t c := by
  simp only [TIA.process_tia_cycle, if_neg h1, if_neg h2]
  refine ⟨?_, ?_, ?_, ?_⟩ <;> (repeat' split) <;> first | rfl | exact ⟨_, rfl⟩

/-- Inside a line `write_pixel` moves the beam one unit to the right. -/
theorem write_pixel_same_line (t : Timing) (n : NTSC) (c : Option Nat)
    (h : n.gun_x + 1 < t.columns) :
    (NTSC.write_pixel t n c).gun_x = n.gun_x + 1 ∧ (NTSC.write_pixel t n c).gun_y = n.gun_y := by
  have hne : ¬ (n.gun_x + 1 = t.columns) := by omega
  constructor <;> simp only [NTSC.write_pixel, if_neg hne]

/-- A chip cycle either returns what `TIA.process_tia_cycle` gives, no guard
having fired, or halts at a guard with one call of `panic()`. -/
theorem run_cycle_cases (t : Timing) (s : TIA) :
    (¬ (0 < s.ntsc.gun_y ∧ s.ntsc.gun_y < t.vsync_lines ∧ s.vsync_mode = false)
        ∧ ¬ (t.vsync_lines < s.ntsc.gun_y ∧ s.vsync_mode = true)
        ∧ Run.process_tia_cycle t s = Outcome.returned (TIA.process_tia_cycle t s))
    ∨ (∃ h, Run.process_tia_cycle t s = Outcome.halted h ∧ h.panics = s.panics + 1) := by
  by_cases h1 : 0 < s.ntsc.gun_y ∧ s.ntsc.gun_y < t.vsync_lines ∧ s.vsync_mode = false
  · right
    refine ⟨TIA.panic (TIA.printf s Report.no_vertical_sync), ?_, rfl⟩
    simp only [Run.process_tia_cycle, if_pos h1]
  · by_cases h2 : t.vsync_lines < s.ntsc.gun_y ∧ s.vsync_mode = true
    · right
      refine ⟨TIA.panic (TIA.printf s Report.too_long_vertical_sync), ?_, rfl⟩
      simp only [Run.process_tia_cycle, if_neg h1, if_pos h2]
    · left
      refine ⟨h1, h2, ?_⟩
      simp only [Run.process_tia_cycle, if_neg h1, if_neg h2]

/-- The loop started at or below its target ends within the missing number of
chip cycles: it returns with the counters in ratio and no call of `panic()`,
or it halts at the first cycle whose guard fires. -/
theorem run_catch_up_ends (t : Timing) :
    ∀ (d : Nat) (s : TIA), s.tia_cycle_num + d = t.tia_cycle_ratio * s.cycle_num →
      ∃ o, (∀ fuel, d ≤ fuel → Run.catch_up t fuel s = some o)
        ∧ (o.is_halted = false →
            o.state.tia_cycle_num = t.tia_cycle_ratio * o.state.cycle_num
            ∧ o.state.cycle_num = s.cycle_num
            ∧ o.state.dma_write_request = s.dma_write_request
            ∧ o.state.panics = s.panics
            ∧ o.state.stdout = s.stdout)
        ∧ (o.is_halted = true → o.state.panics = s.panics + 1) := by
  intro d
  induction d with
  | zero =>
    intro s h
    have h0 : s.tia_cycle_num = t.tia_cycle_ratio * s.cycle_num := by simpa using h
    refine ⟨Outcome.returned s, ?_, fun _ => ⟨h0, rfl, rfl, rfl, rfl⟩,
      fun hh => by simp [Outcome.is_halted] at hh⟩
    intro fuel _
    cases fuel <;> simp [Run.catch_up, h0]
  | succ d ih =>
    intro s h
    have hne : s.tia_cycle_num ≠ t.tia_cycle_ratio * s.cycle_num := by omega
    rcases run_cycle_cases t s with ⟨h1, h2, hret⟩ | ⟨hs, hhalt, hp⟩
    · have hstep : (TIA.process_tia_cycle t s).tia_cycle_num + d
          = t.tia_cycle_ratio * (TIA.process_tia_cycle t s).cycle_num := by
        rw [TIA.process_tia_cycle_tia_cycle_num, TIA.process_tia_cycle_cycle_num]
        omega
      obtain ⟨o, hrun, hr, hh⟩ := ih (TIA.process_tia_cycle t s) hstep
      obtain ⟨hq1, hq2, _, _⟩ := process_tia_cycle_quiet t s h1 h2
      refine ⟨o, ?_, ?_, ?_⟩
      · intro fuel hf
        cases fuel with
        | zero => omega
        | succ n =>
          simp only [Run.catch_up, hne, ne_eq, not_false_eq_true, if_true, hret]
          exact hrun n (by omega)
      · intro ho
        obtain ⟨a, b, c, e, g⟩ := hr ho
        exact ⟨a, by rw [b, TIA.process_tia_cycle_cycle_num],
          by rw [c, TIA.process_tia_cycle_dma_write_request], by rw [e, hq1], by rw [g, hq2]⟩
      · intro ho
        rw [hh ho, hq1]
    · refine ⟨Outcome.halted hs, ?_, fun hh => by simp [Outcome.is_halted] at hh,
        fun _ => hp⟩
      intro fuel hf
      cases fuel with
      | zero => omega
      | succ n =>
        simp only [Run.catch_up, hne, ne_eq, not_false_eq_true, if_true, hhalt]

/-- While the beam stays inside its line neither guard changes, so a loop that
starts with both guards silent returns. -/
theorem run_catch_up_quiet (t : Timing) :
    ∀ (d : Nat) (s : TIA), s.tia_cycle_num + d = t.tia_cycle_ratio * s.cycle_num →
      ¬ (0 < s.ntsc.gun_y ∧ s.ntsc.gun_y < t.vsync_lines ∧ s.vsync_mode = false) →
      ¬ (t.vsync_lines < s.ntsc.gun_y ∧ s.vsync_mode = true) →
      s.ntsc.gun_x + d < t.columns →
      ∃ s', ∀ fuel, d ≤ fuel → Run.catch_up t fuel s = some (Outcome.returned s') := by
  intro d
  induction d with
  | zero =>
    intro s h _ _ _
    have h0 : s.tia_cycle_num = t.tia_cycle_ratio * s.cycle_num := by simpa using h
    refine ⟨s, ?_⟩
    intro fuel _
    cases fuel <;> simp [Run.catch_up, h0]
  | succ d ih =>
    intro s h h1 h2 hx
    have hne : s.tia_cycle_num ≠ t.tia_cycle_ratio * s.cycle_num := by omega
    obtain ⟨_, _, hv, c, hn⟩ := process_tia_cycle_quiet t s h1 h2
    obtain ⟨hgx, hgy⟩ := write_pixel_same_line t s.ntsc c (by omega)
    have hret : Run.process_tia_cycle t s = Outcome.returned (TIA.process_tia_cycle t s) := by
      simp only [Run.process_tia_cycle, if_neg h1, if_neg h2]
    have hstep : (TIA.process_tia_cycle t s).tia_cycle_num + d
        = t.tia_cycle_ratio * (TIA.process_tia_cycle t s).cycle_num := by
      rw [TIA.process_tia_cycle_tia_cycle_num, TIA.process_tia_cycle_cycle_num]
      omega
    obtain ⟨s', hrun⟩ := ih (TIA.process_tia_cycle t s) hstep
      (by rw [hn, hgy, hv]; exact h1) (by rw [hn, hgy, hv]; exact h2)
      (by rw [hn, hgx]; omega)
    refine ⟨s', ?_⟩
    intro fuel hf
    cases fuel with
    | zero => omega
    | succ n =>
      simp only [Run.catch_up, hne, ne_eq, not_false_eq_true, if_true, hret]
      exact hrun n (by omega)

theorem apply_pending_dma_write_request (t : Timing) (s : TIA) :
    (TIA.apply_pending t s).dma_write_request = none := by
  unfold TIA.apply_pending
  split
  · rfl
  · assumption

/-- `process_tia` either goes on to the loop from the state `TIA.apply_pending`
gives, no handler having called `panic()`, or halts in the pending handler. -/
theorem run_process_tia_cases (t : Timing) (s : TIA) :
    ((TIA.apply_pending t s).panics = s.panics
        ∧ (TIA.apply_pending t s).stdout = s.stdout
        ∧ ∀ fuel, Run.process_tia t fuel s = Run.catch_up t fuel (TIA.apply_pending t s))
    ∨ ((TIA.apply_pending t s).panics = s.panics + 1
        ∧ ∃ h, h.panics = s.panics + 1
          ∧ ∀ fuel, Run.process_tia t fuel s = some (Outcome.halted h)) := by
  cases hreq : s.dma_write_request with
  | none =>
    left
    have e : TIA.apply_pending t s = s := by
      simp only [TIA.apply_pending, hreq]
    rw [e]
    refine ⟨rfl, rfl, ?_⟩
    intro fuel
    simp only [Run.process_tia, hreq]
  | some f =>
    have e : TIA.apply_pending t s
        = { TIA.call t f s s.dma_val with dma_write_request := none, dma_val := 0 } := by
      simp only [TIA.apply_pending, hreq]
    rcases run_call_cases t f s s.dma_val with ⟨hc, hp, hso⟩ | ⟨hc, hp⟩
    · left
      rw [e]
      refine ⟨hp, hso, ?_⟩
      · intro fuel
        simp only [Run.process_tia, hreq, hc]
    · right
      rw [e]
      refine ⟨hp, _, hp, ?_⟩
      intro fuel
      simp only [Run.process_tia, hreq, hc]

/-- C1: from every state with `tia_cycle_num ≤ tia_cycle_ratio * cycle_num`,
whatever write is pending (none, a register write, or WSYNC, which moves
`cycle_num` forward), `process_tia` ends once it is given at least the number
of chip cycles that are missing. When it returns, `tia_cycle_num =
tia_cycle_ratio * cycle_num` for the CPU counter of the state it returns, which
is the counter as the pending handler left it; no write is pending and nothing
was printed. It does not return only when the fatal condition is raised, by the
pending handler or by the guard of a chip cycle: then it halts there, with one
call of `panic()`. It does return whenever the pending handler accepts its
byte, both guards are silent after it and the missing cycles stay inside the
current line. -/
theorem process_tia_restores_cycle_invariant (t : Timing) (s : TIA)
    (h : s.tia_cycle_num ≤ t.tia_cycle_ratio * s.cycle_num) :
    ∃ o, (∀ fuel,
            t.tia_cycle_ratio * (TIA.apply_pending t s).cycle_num - s.tia_cycle_num ≤ fuel →
              Run.process_tia t fuel s = some o)
      ∧ (o.is_halted = false →
          o.state.tia_cycle_num = t.tia_cycle_ratio * o.state.cycle_num
          ∧ o.state.cycle_num = (TIA.apply_pending t s).cycle_num
          ∧ o.state.dma_write_request = none
          ∧ o.state.panics = s.panics
          ∧ o.state.stdout = s.stdout)
      ∧ (o.is_halted = true → o.state.panics = s.panics + 1)
      ∧ ((TIA.apply_pending t s).panics = s.panics
          ∧ ¬ (0 < (TIA.apply_pending t s).ntsc.gun_y
                ∧ (TIA.apply_pending t s).ntsc.gun_y < t.vsync_lines
                ∧ (TIA.apply_pending t s).vsync_mode = false)
          ∧ ¬ (t.vsync_lines < (TIA.apply_pending t s).ntsc.gun_y
                ∧ (TIA.apply_pending t s).vsync_mode = true)
          ∧ (TIA.apply_pending t s).ntsc.gun_x
              + (t.tia_cycle_ratio * (TIA.apply_pending t s).cycle_num - s.tia_cycle_num)
              < t.columns →
          o.is_halted = false) := by
  have hle := apply_pending_le t s h
  have htia := TIA.apply_pending_tia_cycle_num t s
  rcases run_process_tia_cases t s with ⟨hp, hso, hrun⟩ | ⟨hp, hs, hhp, hrun⟩
  · obtain ⟨o, hends, hr, hh⟩ := run_catch_up_ends t
      (t.tia_cycle_ratio * (TIA.apply_pending t s).cycle_num - s.tia_cycle_num)
      (TIA.apply_pending t s) (by omega)
    refine ⟨o, ?_, ?_, ?_, ?_⟩
    · intro fuel hf
      rw [hrun fuel]
      exact hends fuel hf
    · intro ho
      obtain ⟨a, b, c, e, g⟩ := hr ho
      exact ⟨a, b, by rw [c, apply_pending_dma_write_request], by rw [e, hp], by rw [g, hso]⟩
    · intro ho
      rw [hh ho, hp]
    · rintro ⟨_, h1, h2, hx⟩
      obtain ⟨s', hq⟩ := run_catch_up_quiet t
        (t.tia_cycle_ratio * (TIA.apply_pending t s).cycle_num - s.tia_cycle_num)
        (TIA.apply_pending t s) (by omega) h1 h2 hx
      have e1 := hends _ (Nat.le_refl _)
      rw [hq _ (Nat.le_refl _)] at e1
      have e2 : Outcome.returned s' = o := Option.some.inj e1
      rw [← e2]
      rfl
  · refine ⟨Outcome.halted hs, fun fuel _ => hrun fuel,
      fun ho => by simp [Outcome.is_halted] at ho, fun _ => hhp, ?_⟩
    rintro ⟨hq, _⟩
    omega

/-- C1 at CPU cycle 40, chip cycle 120, WSYNC pending, the beam at the start
of line 0: the 174 missing chip cycles stay inside the line and `process_tia`
returns. -/
theorem process_tia_restores_cycle_invariant_witness :
    wsync_pending_chip.tia_cycle_num ≤ ntsc_timing.tia_cycle_ratio * wsync_pending_chip.cycle_num
    ∧ ∃ o, (∀ fuel, 174 ≤ fuel → Run.process_tia ntsc_timing fuel wsync_pending_chip = some o)
        ∧ o.is_halted = false
        ∧ o.state.tia_cycle_num = ntsc_timing.tia_cycle_ratio * o.state.cycle_num
        ∧ o.state.cycle_num = 98 :=
  ⟨by decide,
   (process_tia_restores_cycle_invariant ntsc_timing wsync_pending_chip (by decide)).elim
     (fun o ho =>
       ⟨o, ho.1,
        ho.2.2.2 ⟨by decide, by decide, by decide, by decide⟩,
        (ho.2.1 (ho.2.2.2 ⟨by decide, by decide, by decide, by decide⟩)).1,
        (ho.2.1 (ho.2.2.2 ⟨by decide, by decide, by decide, by decide⟩)).2.1⟩)⟩

/-- C5 as stated fails: `VSYNC := 2` is pending and a byte is written to offset
3, which has no handler. The write raises the fatal condition and the emulation
halts there, so the `process_tia` that would follow does not run and the
pending write is not applied: `vsync_mode` is false in the halted state,
whereas `process_tia` without the stray write returns with `vsync_mode` true. -/
theorem stray_write_halts_emulation :
    vsync_pending_chip.dma_write_table 3 = none
    ∧ vsync_pending_chip.dma_write_request = some WriteFunc.vsync
    ∧ (Run.dma_write_hook vsync_pending_chip 3 0x55).is_halted = true
    ∧ (Run.dma_write_hook vsync_pending_chip 3 0x55).state.stdout
        = [Report.invalid_dma_write 3]
    ∧ (Run.and_then (Run.dma_write_hook vsync_pending_chip 3 0x55)
          (Run.process_tia ntsc_timing 0)).map
        (fun o => (o.is_halted, o.state.vsync_mode, o.state.dma_write_request))
        = some (true, false, some WriteFunc.vsync)
    ∧ (Run.process_tia ntsc_timing 0 vsync_pending_chip).map
        (fun o => (o.is_halted, o.state.vsync_mode, o.state.dma_write_request))
        = some (false, true, none) := by
  refine ⟨by decide, by decide, by decide, by decide, by decide, by decide⟩

/-- C5 as amended: a bus write to an offset with no registered write handler
prints the invalid-write line and raises the fatal condition, at which the
emulation halts. In the halted state no pending write has been set and nothing
else in the chip has changed: a write that was pending before is still in the
slot with its handler and value. No call that would follow runs, so it is not
applied. -/
theorem dma_write_hook_miss_halts (s : TIA) (addr val : Nat)
    (h : s.dma_write_table addr = none) :
    Run.dma_write_hook s addr val
        = Outcome.halted (TIA.panic (TIA.printf s (Report.invalid_dma_write addr)))
    ∧ (Run.dma_write_hook s addr val).is_halted = true
    ∧ (Run.dma_write_hook s addr val).state.stdout = Report.invalid_dma_write addr :: s.stdout
    ∧ (Run.dma_write_hook s addr val).state.panics = s.panics + 1
    ∧ { (Run.dma_write_hook s addr val).state with stdout := s.stdout, panics := s.panics } = s
    ∧ (Run.dma_write_hook s addr val).state.dma_write_request = s.dma_write_request
    ∧ (Run.dma_write_hook s addr val).state.dma_val = s.dma_val
    ∧ (∀ k : TIA → Option Outcome,
        Run.and_then (Run.dma_write_hook s addr val) k
          = some (Outcome.halted (TIA.panic (TIA.printf s (Report.invalid_dma_write addr))))) := by
  have e : Run.dma_write_hook s addr val
      = Outcome.halted (TIA.panic (TIA.printf s (Report.invalid_dma_write addr))) := by
    simp [Run.dma_write_hook, h]
  rw [e]
  exact ⟨rfl, rfl, rfl, rfl, rfl, rfl, rfl, fun _ => rfl⟩

/-- C5 as amended, with `VSYNC := 2` pending and a write to offset 3. -/
theorem dma_write_hook_miss_halts_witness :
    vsync_pending_chip.dma_write_table 3 = none
    ∧ (Run.dma_write_hook vsync_pending_chip 3 0x55).is_halted = true
    ∧ (Run.dma_write_hook vsync_pending_chip 3 0x55).state.dma_write_request
        = vsync_pending_chip.dma_write_request
    ∧ (Run.dma_write_hook vsync_pending_chip 3 0x55).state.dma_val
        = vsync_pending_chip.dma_val :=
  ⟨by decide,
   (dma_write_hook_miss_halts vsync_pending_chip 3 0x55 (by decide)).2.1,
   (dma_write_hook_miss_halts vsync_pending_chip 3 0x55 (by decide)).2.2.2.2.2.1,
   (dma_write_hook_miss_halts vsync_pending_chip 3 0x55 (by decide)).2.2.2.2.2.2.1⟩

end Atari
